import Mathlib

/-!
Verification of the paperFoldPackage pattern-generation and theorem-validation
engine against its specification.

The engine lives in `src/core/geometry.ts` (shape generators, tab/slit
primitives) and `src/core/theorems.ts` (Kawasaki-Justin, Maekawa, crimping and
assembly-mechanics validators).  This file gives a shallow embedding of that
code and proves/refutes the spec's claims about it.

Modelling conventions:
* JavaScript `number` arithmetic is idealised as exact real arithmetic (`ℝ`).
  All tolerance comparisons in the source (1e-3 vertex clustering, 0.01 rad
  angle tolerance) absorb double-precision rounding, so the idealisation is
  faithful for every concrete input considered here.
* All pattern points are created through `v2(x, z)` in the source, which pins
  the THREE.Vector3 `y` coordinate to 0; the embedding therefore carries only
  the two active coordinates `x` and `z`.
* The source has no `throw` statement anywhere in the engine (no
  `InvalidDimension` / `DegenerateGeometry` error path exists in the code), so
  every embedded function is total, exactly like the TypeScript.
* Human-readable message strings are embedded as structured values (one
  constructor per message template, carrying the interpolated data); the
  untyped `details` diagnostic payload (`Record<string, unknown>`) is not
  modelled, it is write-only diagnostic output inspected by no code path.
-/

namespace PaperFold

noncomputable section

open Real

/-- A point of the flat pattern plane: the source's `v2(x, z)` builds a
`THREE.Vector3(x, 0, z)`, so only `x` and `z` are active. -/
@[ext]
structure Pt where
  x : ℝ
  z : ℝ

/-- THREE.Vector3.equals — exact componentwise comparison. -/
instance : DecidableEq Pt := fun p q =>
  decidable_of_iff (p.x = q.x ∧ p.z = q.z) (by cases p; cases q; simp)

/-- `v2(x, z)` from geometry.ts. -/
def v2 (x z : ℝ) : Pt := ⟨x, z⟩

/-- THREE.Vector3.add (componentwise). -/
def padd (p q : Pt) : Pt := ⟨p.x + q.x, p.z + q.z⟩

/-- THREE.Vector3.sub (componentwise). -/
def psub (p q : Pt) : Pt := ⟨p.x - q.x, p.z - q.z⟩

/-- THREE.Vector3.multiplyScalar. -/
def pscale (p : Pt) (s : ℝ) : Pt := ⟨p.x * s, p.z * s⟩

/-- THREE.Vector3.negate. -/
def pneg (p : Pt) : Pt := ⟨-p.x, -p.z⟩

/-- THREE.Vector3.length (the `y` component is always 0 here). -/
def plength (p : Pt) : ℝ := Real.sqrt (p.x ^ 2 + p.z ^ 2)

/-- THREE.Vector3.distanceTo. -/
def distanceTo (p q : Pt) : ℝ := plength (psub p q)

/-- THREE.Vector3.dot restricted to the active plane (`y` terms vanish). -/
def pdot (p q : Pt) : ℝ := p.x * q.x + p.z * q.z

/-- THREE.Vector3.normalize, which is `divideScalar(this.length() || 1)`:
a zero-length vector is divided by 1, i.e. left unchanged. -/
def normalize (p : Pt) : Pt :=
  if plength p = 0 then p else ⟨p.x / plength p, p.z / plength p⟩

/-- Fold line classification tag. -/
inductive FoldKind where
  | mountain
  | valley
  | cut
deriving DecidableEq, Repr

/-- `FoldLine` from types/index.ts.  The source field `end` is a Lean keyword
and is embedded as `endp`. -/
structure FoldLine where
  start : Pt
  endp : Pt
  type : FoldKind

instance : DecidableEq FoldLine := fun l m =>
  decidable_of_iff (l.start = m.start ∧ l.endp = m.endp ∧ l.type = m.type)
    (by cases l; cases m; simp)

/-- `fold(start, end, type)` from geometry.ts (the endpoint `clone()`s only
matter for JS aliasing, values are copied here by construction). -/
def fold (start stop : Pt) (type : FoldKind) : FoldLine :=
  { start := start, endp := stop, type := type }

/-- `FoldPattern` from types/index.ts. -/
structure FoldPattern where
  name : String
  vertices : List Pt
  foldLines : List FoldLine
  faces : List (List ℕ)

/-- The five shape types. -/
inductive ShapeType where
  | box
  | pyramid
  | envelope
  | cylinder
  | prism
deriving DecidableEq, Repr

/-- `PatternConfig` from types/index.ts. -/
structure PatternConfig where
  shapeType : ShapeType
  width : ℝ
  height : ℝ
  depth : ℝ
  thickness : ℝ

/-- Return value of `generateLockingTab`. -/
structure TabResult where
  vertices : List Pt
  foldLines : List FoldLine

/-- `generateLockingTab(baseStart, baseEnd, tabDepth, inward)` from
geometry.ts.  No degeneracy check exists in the source: a zero-length base
edge flows through `normalize` (whose `|| 1` guard maps the zero vector to
itself) and yields a degenerate tab. -/
def generateLockingTab (baseStart baseEnd : Pt) (tabDepth : ℝ) (inward : Bool) :
    TabResult :=
  let dir0 := psub baseEnd baseStart
  let len := plength dir0
  let dir := normalize dir0
  let perp0 : Pt := ⟨-dir.z, dir.x⟩
  let perp := if inward then perp0 else pneg perp0
  let taperRatio : ℝ := 0.7
  let insetRatio := (1 - taperRatio) / 2
  let tabStart := padd baseStart (pscale perp tabDepth)
  let tabEnd := padd baseEnd (pscale perp tabDepth)
  let tipStart := padd tabStart (pscale dir (len * insetRatio))
  let tipEnd := psub tabEnd (pscale dir (len * insetRatio))
  { vertices := [baseStart, baseEnd, tipEnd, tipStart]
    foldLines :=
      [fold baseStart baseEnd .mountain,
       fold baseStart tipStart .cut,
       fold tipStart tipEnd .cut,
       fold tipEnd baseEnd .cut] }

/-- The default `slitRatio = 0.8` of `generateSlit` (callers may override). -/
def slitRatioDefault : ℝ := 0.8

/-- `generateSlit(start, end, slitRatio)` from geometry.ts.  The source
default for `slitRatio` is `slitRatioDefault = 0.8`; call sites that rely on
the default pass it explicitly here. -/
def generateSlit (start stop : Pt) (slitRatio : ℝ) : List FoldLine :=
  let dir0 := psub stop start
  let len := plength dir0
  let dir := normalize dir0
  let inset := len * (1 - slitRatio) / 2
  let slitStart := padd start (pscale dir inset)
  let slitEnd := psub stop (pscale dir inset)
  [fold slitStart slitEnd .cut]

/-- `generateBoxPattern` from geometry.ts: cross layout, six faces, five
locking tabs and two insertion slits (ratio 0.7). -/
def generateBoxPattern (config : PatternConfig) : FoldPattern :=
  let width := config.width
  let height := config.height
  let depth := config.depth
  let tabDepth := min width (min height depth) * 0.15
  let bottomBL := v2 (-width / 2) (-depth / 2)
  let bottomBR := v2 (width / 2) (-depth / 2)
  let bottomTR := v2 (width / 2) (depth / 2)
  let bottomTL := v2 (-width / 2) (depth / 2)
  let frontBL := v2 (-width / 2) (depth / 2)
  let frontBR := v2 (width / 2) (depth / 2)
  let frontTR := v2 (width / 2) (depth / 2 + height)
  let frontTL := v2 (-width / 2) (depth / 2 + height)
  let backTL := v2 (-width / 2) (-depth / 2)
  let backTR := v2 (width / 2) (-depth / 2)
  let backBR := v2 (width / 2) (-depth / 2 - height)
  let backBL := v2 (-width / 2) (-depth / 2 - height)
  let leftBR := v2 (-width / 2) (-depth / 2)
  let leftTR := v2 (-width / 2) (depth / 2)
  let leftTL := v2 (-width / 2 - height) (depth / 2)
  let leftBL := v2 (-width / 2 - height) (-depth / 2)
  let rightBL := v2 (width / 2) (-depth / 2)
  let rightTL := v2 (width / 2) (depth / 2)
  let rightTR := v2 (width / 2 + height) (depth / 2)
  let rightBR := v2 (width / 2 + height) (-depth / 2)
  let topBL := frontTL
  let topBR := frontTR
  let topTR := v2 (width / 2) (depth / 2 + height + depth)
  let topTL := v2 (-width / 2) (depth / 2 + height + depth)
  let vertices :=
    [bottomBL, bottomBR, bottomTR, bottomTL,
     frontTL, frontTR,
     backBL, backBR,
     leftBL, leftTL,
     rightBR, rightTR,
     topTL, topTR]
  let faces : List (List ℕ) :=
    [[0, 1, 2, 3],
     [3, 2, 5, 4],
     [1, 0, 6, 7],
     [0, 3, 9, 8],
     [2, 1, 10, 11],
     [4, 5, 13, 12]]
  let backLeftTab := generateLockingTab backBL backTL tabDepth true
  let backRightTab := generateLockingTab backTR backBR tabDepth true
  let topLeftTab := generateLockingTab topTL topBL tabDepth true
  let topRightTab := generateLockingTab topBR topTR tabDepth true
  let topFrontTab := generateLockingTab topTL topTR tabDepth false
  let foldLines :=
    [fold backBL backBR .cut,
     fold backBR backTR .cut,
     fold backBL backTL .cut,
     fold leftBL leftTL .cut,
     fold leftBL leftBR .cut,
     fold leftTL leftTR .cut,
     fold rightBR rightTR .cut,
     fold rightBL rightBR .cut,
     fold rightTL rightTR .cut,
     fold frontBL frontTL .cut,
     fold frontBR frontTR .cut,
     fold topTL topTR .cut,
     fold topTL topBL .cut,
     fold topTR topBR .cut,
     fold bottomBL bottomBR .mountain,
     fold bottomTL bottomTR .mountain,
     fold bottomBL bottomTL .mountain,
     fold bottomBR bottomTR .mountain,
     fold frontTL frontTR .mountain]
    ++ backLeftTab.foldLines
    ++ backRightTab.foldLines
    ++ topLeftTab.foldLines
    ++ topRightTab.foldLines
    ++ topFrontTab.foldLines
    ++ generateSlit leftBL leftTL 0.7
    ++ generateSlit rightBR rightTR 0.7
  { name := "Box (Glue-Free)"
    vertices := vertices
    foldLines := foldLines
    faces := faces }

/-- `generatePyramidPattern` from geometry.ts: square base of side
`min(width, depth)` with four triangular faces. -/
def generatePyramidPattern (config : PatternConfig) : FoldPattern :=
  let width := config.width
  let depth := config.depth
  let height := config.height
  let baseSize := min width depth
  let slantHeight := Real.sqrt (height * height + (baseSize / 2) * (baseSize / 2))
  let tabDepth := baseSize * 0.12
  let half := baseSize / 2
  let baseBL := v2 (-half) (-half)
  let baseBR := v2 half (-half)
  let baseTR := v2 half half
  let baseTL := v2 (-half) half
  let apexFront := v2 0 (half + slantHeight)
  let apexBack := v2 0 (-half - slantHeight)
  let apexLeft := v2 (-half - slantHeight) 0
  let apexRight := v2 (half + slantHeight) 0
  let vertices := [baseBL, baseBR, baseTR, baseTL, apexFront, apexBack, apexLeft, apexRight]
  let faces : List (List ℕ) :=
    [[0, 1, 2, 3], [3, 2, 4], [1, 0, 5], [0, 3, 6], [2, 1, 7]]
  let frontLeftTab := generateLockingTab baseTL apexFront tabDepth false
  let backRightTab := generateLockingTab baseBR apexBack tabDepth true
  let leftBackTab := generateLockingTab apexLeft baseBL tabDepth false
  let rightFrontTab := generateLockingTab apexRight baseTR tabDepth true
  let foldLines :=
    [fold baseTL apexFront .cut,
     fold apexFront baseTR .cut,
     fold baseBR apexBack .cut,
     fold apexBack baseBL .cut,
     fold baseTL apexLeft .cut,
     fold apexLeft baseBL .cut,
     fold baseTR apexRight .cut,
     fold apexRight baseBR .cut,
     fold baseTL baseTR .mountain,
     fold baseBL baseBR .mountain,
     fold baseBL baseTL .mountain,
     fold baseBR baseTR .mountain]
    ++ frontLeftTab.foldLines
    ++ backRightTab.foldLines
    ++ leftBackTab.foldLines
    ++ rightFrontTab.foldLines
  { name := "Pyramid (Glue-Free)"
    vertices := vertices
    foldLines := foldLines
    faces := faces }

/-- `generateEnvelopePattern` from geometry.ts: rectangular body (60% of
depth) with four triangular flaps and one tuck slit; `height` is never read. -/
def generateEnvelopePattern (config : PatternConfig) : FoldPattern :=
  let width := config.width
  let depth := config.depth
  let bodyWidth := width
  let bodyDepth := depth * 0.6
  let flapDepth := depth * 0.25
  let topFlapDepth := depth * 0.35
  let bottomFlapDepth := depth * 0.3
  let hw := bodyWidth / 2
  let hd := bodyDepth / 2
  let bodyBL := v2 (-hw) (-hd)
  let bodyBR := v2 hw (-hd)
  let bodyTR := v2 hw hd
  let bodyTL := v2 (-hw) hd
  let bottomApex := v2 0 (-hd - bottomFlapDepth)
  let topApex := v2 0 (hd + topFlapDepth)
  let leftApex := v2 (-hw - flapDepth) 0
  let rightApex := v2 (hw + flapDepth) 0
  let vertices := [bodyBL, bodyBR, bodyTR, bodyTL, bottomApex, topApex, leftApex, rightApex]
  let faces : List (List ℕ) :=
    [[0, 1, 2, 3], [0, 1, 4], [3, 2, 5], [0, 3, 6], [2, 1, 7]]
  let slitWidth := bodyWidth * 0.3
  let slitZ := hd + topFlapDepth * 0.4
  let foldLines :=
    [fold bodyBL bottomApex .cut,
     fold bottomApex bodyBR .cut,
     fold bodyTL topApex .cut,
     fold topApex bodyTR .cut,
     fold bodyBL leftApex .cut,
     fold leftApex bodyTL .cut,
     fold bodyBR rightApex .cut,
     fold rightApex bodyTR .cut,
     fold bodyBL bodyBR .valley,
     fold bodyTL bodyTR .valley,
     fold bodyBL bodyTL .valley,
     fold bodyBR bodyTR .valley,
     fold (v2 (-slitWidth / 2) slitZ) (v2 (slitWidth / 2) slitZ) .cut]
  { name := "Envelope (Glue-Free)"
    vertices := vertices
    foldLines := foldLines
    faces := faces }

/-- `generatePrismPattern` from geometry.ts: hexagonal base, six extruded side
faces with alternating cut edges and tabs; `depth` is never read. -/
def generatePrismPattern (config : PatternConfig) : FoldPattern :=
  let width := config.width
  let height := config.height
  let radius := width / 2
  let tabDepth := radius * 0.15
  let hexPoints : List Pt := (List.range 6).map fun i =>
    let angle := ((i : ℝ) * π) / 3 - π / 6
    v2 (Real.cos angle * radius) (Real.sin angle * radius)
  let hp := fun i => hexPoints.getD i ⟨0, 0⟩
  let perim := (List.range 6).map fun i => fold (hp i) (hp ((i + 1) % 6)) .mountain
  let state := (List.range 6).foldl
    (fun (acc : List Pt × List FoldLine × List (List ℕ)) i =>
      let vs := acc.1
      let fls := acc.2.1
      let fcs := acc.2.2
      let next := (i + 1) % 6
      let p1 := hp i
      let p2 := hp next
      let mid := pscale (padd p1 p2) 0.5
      let outDir := normalize mid
      let s1 := padd p1 (pscale outDir height)
      let s2 := padd p2 (pscale outDir height)
      let vIdx := vs.length
      let sideLines :=
        if i % 2 == 0 then
          [fold p1 s1 .cut] ++ (if i == 4 then [fold p2 s2 .cut] else [])
        else
          (generateLockingTab p1 s1 tabDepth true).foldLines
      (vs ++ [s1, s2],
       fls ++ [fold s1 s2 .cut] ++ sideLines,
       fcs ++ [[i, next, vIdx + 1, vIdx]]))
    (hexPoints, perim, ([[0, 1, 2, 3, 4, 5]] : List (List ℕ)))
  { name := "Hexagonal Prism (Glue-Free)"
    vertices := state.1
    foldLines := state.2.1
    faces := state.2.2 }

/-- `generateCylinderPattern` from geometry.ts: wrapped rectangle of width
`2π·radius`, vertical tab/slit closure, two 12-gon caps; `depth` is never
read. -/
def generateCylinderPattern (config : PatternConfig) : FoldPattern :=
  let width := config.width
  let height := config.height
  let radius := width / 2
  let circumference := 2 * π * radius
  let tabDepth := radius * 0.15
  let bodyWidth := circumference
  let bodyHeight := height
  let bodyBL := v2 0 0
  let bodyBR := v2 bodyWidth 0
  let bodyTR := v2 bodyWidth bodyHeight
  let bodyTL := v2 0 bodyHeight
  let tabHeight := bodyHeight * 0.8
  let tabStart := bodyHeight * 0.1
  let tabEnd := tabStart + tabHeight
  let tabBL := v2 bodyWidth tabStart
  let tabTL := v2 bodyWidth tabEnd
  let taperRatio : ℝ := 0.7
  let taperInset := tabHeight * (1 - taperRatio) / 2
  let tabTipBL := v2 (bodyWidth + tabDepth) (tabStart + taperInset)
  let tabTipTL := v2 (bodyWidth + tabDepth) (tabEnd - taperInset)
  let slitStart := v2 0 (tabStart + taperInset)
  let slitEnd := v2 0 (tabEnd - taperInset)
  let numSegments : ℕ := 12
  let topCenterX := bodyWidth / 2
  let topCenterY := bodyHeight + radius + tabDepth
  let topCircle : ℕ → Pt := fun i =>
    let angle := ((i : ℝ) * 2 * π) / numSegments
    v2 (topCenterX + radius * Real.cos angle) (topCenterY + radius * Real.sin angle)
  let topPerim := (List.range numSegments).map fun i =>
    fold (topCircle i) (topCircle ((i + 1) % numSegments)) .cut
  let topAttachY := bodyHeight
  let topAttach := ((List.range numSegments).map fun (i : ℕ) =>
    let segmentX := ((i : ℝ) * bodyWidth) / numSegments
    [fold (v2 segmentX topAttachY) (v2 (segmentX + bodyWidth / numSegments) topAttachY) .mountain,
     fold (v2 segmentX topAttachY) (topCircle i) .valley]).flatten
  let bottomCenterX := bodyWidth / 2
  let bottomCenterY := -(radius + tabDepth)
  let bottomCircle : ℕ → Pt := fun i =>
    let angle := ((i : ℝ) * 2 * π) / numSegments
    v2 (bottomCenterX + radius * Real.cos angle) (bottomCenterY + radius * Real.sin angle)
  let bottomPerim := (List.range numSegments).map fun i =>
    fold (bottomCircle i) (bottomCircle ((i + 1) % numSegments)) .cut
  let bottomAttachY : ℝ := 0
  let bottomAttach := ((List.range numSegments).map fun (i : ℕ) =>
    let segmentX := ((i : ℝ) * bodyWidth) / numSegments
    [fold (v2 segmentX bottomAttachY) (v2 (segmentX + bodyWidth / numSegments) bottomAttachY) .mountain,
     fold (v2 segmentX bottomAttachY) (bottomCircle i) .valley]).flatten
  let foldLines :=
    [fold tabBL tabTL .mountain,
     fold tabBL tabTipBL .cut,
     fold tabTipBL tabTipTL .cut,
     fold tabTipTL tabTL .cut,
     fold slitStart slitEnd .cut]
    ++ topPerim ++ topAttach ++ bottomPerim ++ bottomAttach
    ++ [fold bodyBL bodyBR .cut,
        fold bodyTL bodyTR .cut,
        fold bodyBL (v2 0 (tabStart + taperInset)) .cut,
        fold (v2 0 (tabEnd - taperInset)) bodyTL .cut,
        fold bodyBR (v2 bodyWidth tabStart) .cut,
        fold (v2 bodyWidth tabEnd) bodyTR .cut]
  { name := "Cylinder (Glue-Free)"
    vertices := [bodyBL, bodyBR, bodyTR, bodyTL]
    foldLines := foldLines
    faces := [[0, 1, 2, 3]] }

/-- `generatePattern` from geometry.ts: a plain dispatch on the shape type.
The source performs no dimension validation whatsoever and contains no throw
statement; the `default` switch arm falls back to the box generator. -/
def generatePattern (config : PatternConfig) : FoldPattern :=
  match config.shapeType with
  | .box => generateBoxPattern config
  | .pyramid => generatePyramidPattern config
  | .envelope => generateEnvelopePattern config
  | .prism => generatePrismPattern config
  | .cylinder => generateCylinderPattern config

/-! ## theorems.ts — theorem validation system -/

/-- The entry of one circular position around a vertex: M (mountain),
V (valley) or C (cut, excluded from Maekawa counting). -/
inductive FoldSym where
  | M
  | V
  | C
deriving DecidableEq, Repr

/-- `KAWASAKI_JUSTIN` constant table from theorems.ts. -/
structure KJParams where
  minFolds : ℕ
  angleSumTotal : ℝ
  alternatingSumEach : ℝ
  tolerance : ℝ

def KAWASAKI_JUSTIN : KJParams :=
  { minFolds := 4
    angleSumTotal := 2 * π
    alternatingSumEach := π
    tolerance := 0.01 }

/-- `MAEKAWA` constant table from theorems.ts. -/
structure MaekawaParams where
  differenceAbsolute : ℕ
  minFolds : ℕ
  tolerance : ℝ

def MAEKAWA : MaekawaParams :=
  { differenceAbsolute := 2, minFolds := 4, tolerance := 0.001 }

/-- `ASSEMBLY_MECHANICS.tab.depthCoefficient` from theorems.ts.  The JS access
is `depthCoefficient[config.shapeType] || 0.15`; every table entry is nonzero
(truthy), so the `|| 0.15` fallback is inert for the five known shape types
and the lookup is a total match here. -/
def depthCoefficient : ShapeType → ℝ
  | .box => 0.15
  | .pyramid => 0.12
  | .prism => 0.15
  | .cylinder => 0.15
  | .envelope => 0.10

/-- `ASSEMBLY_MECHANICS.minFeatureSizeMultiplier` from theorems.ts. -/
def minFeatureSizeMultiplier : ℝ := 5

/-- Why `checkVertexValidity` rejected a vertex: structured embedding of the
two `failureReason` message templates in theorems.ts. -/
inductive FailureReason where
  | maekawaViolated (diff : ℕ)
  | cannotCrimp (minAngle : ℝ) (left right : FoldSym) (step : ℕ)
      (remaining : List FoldSym)
deriving DecidableEq

/-- Structured embedding of the error/warning message strings produced by the
validators, one constructor per template, carrying the interpolated data. -/
inductive Msg where
  | kawasakiExempt (x z : ℝ) (foldCount : ℕ)
  | kawasakiTotalSum (total : ℝ)
  | kawasakiEvenSum (sum err : ℝ)
  | kawasakiOddSum (sum err : ℝ)
  | maekawaPerimeter (x z : ℝ) (degree : ℕ)
  | maekawaViolation (x z : ℝ) (m v diff : ℕ) (seq : List FoldSym)
  | vertexInvalid (x z : ℝ) (seq : List FoldSym) (reason : Option FailureReason)
  | vertexCrimpOk (x z : ℝ) (seq : List FoldSym) (steps : ℕ)
  | tabDepthNote (expected coeff minDim : ℝ)
  | tabDepthTooSmall (actual minFeature : ℝ)
  | thicknessTooThick (thickness minDim : ℝ)
  | pairingNotImplemented

/-- `ValidationResult` from theorems.ts (without the untyped write-only
`details` payload, see the file header). -/
structure ValidationResult where
  valid : Bool
  theoremId : String
  errors : List Msg
  warnings : List Msg

/-- `PatternValidation` from theorems.ts.  `Date.now()` wall-clock time is
modelled as the constant 0. -/
structure PatternValidation where
  overall : Bool
  theorems : List ValidationResult
  timestamp : ℕ

/-- `VertexTypeInfo` from theorems.ts. -/
structure VertexTypeInfo where
  vertex : Pt
  degree : ℕ
  sequence : List FoldSym
  mountains : ℕ
  valleys : ℕ
  maekawaDifference : ℕ
  maekawaSatisfied : Bool
  isInterior : Bool
  angles : List ℝ

/-- `CrimpStep` from theorems.ts. -/
structure CrimpStep where
  step : ℕ
  crimpedAngle : ℝ
  foldTypes : FoldSym × FoldSym
  remainingDegree : ℕ

/-- `VertexValidityResult` from theorems.ts. -/
structure VertexValidityResult where
  valid : Bool
  vertexType : VertexTypeInfo
  crimpSteps : List CrimpStep
  failureReason : Option FailureReason

/-- `findConnectedLines(vertex, allLines, tolerance)` from theorems.ts; the
source default `tolerance = 0.001` is passed explicitly at every call site
here. -/
def findConnectedLines (vertex : Pt) (allLines : List FoldLine) (tolerance : ℝ) :
    List FoldLine :=
  allLines.filter fun line =>
    decide (distanceTo line.start vertex < tolerance) ||
    decide (distanceTo line.endp vertex < tolerance)

/-- One step of the vertex-collection loop in `extractVertices`: append the
point unless a vertex within tolerance 0.001 was already collected. -/
def insertVertex (vertices : List Pt) (point : Pt) : List Pt :=
  if vertices.any (fun v => decide (distanceTo v point < 0.001)) then vertices
  else vertices ++ [point]

/-- `extractVertices(foldLines)` from theorems.ts: fold over all lines, for
each line first its `start` then its `end` endpoint. -/
def extractVertices (foldLines : List FoldLine) : List Pt :=
  foldLines.foldl (fun acc line => insertVertex (insertVertex acc line.start) line.endp) []

/-- JavaScript `Math.atan2(y, x)` (range `(-π, π]`, zero at `(0, 0)`). -/
def atan2 (y x : ℝ) : ℝ :=
  if 0 < x then Real.arctan (y / x)
  else if x < 0 then
    (if 0 ≤ y then Real.arctan (y / x) + π else Real.arctan (y / x) - π)
  else if 0 < y then π / 2
  else if y < 0 then -(π / 2)
  else 0

/-- Angle of a direction vector measured from the +X axis in the XZ plane:
the sort key `Math.atan2(a.z, a.x)` used by both theorems.ts and geometry.ts. -/
def dirAngle (d : Pt) : ℝ := atan2 d.z d.x

/-- `verifyKawasakiJustinAtVertex(vertex, connectedLines)` from theorems.ts.
`Array.prototype.sort` with the comparator `atan2(a) - atan2(b)` is a stable
ascending sort by `dirAngle` and is modelled by the stable `insertionSort`. -/
def verifyKawasakiJustinAtVertex (vertex : Pt) (connectedLines : List FoldLine) :
    ValidationResult :=
  if connectedLines.length < KAWASAKI_JUSTIN.minFolds then
    { valid := true
      theoremId := "kawasaki-justin"
      errors := []
      warnings := [.kawasakiExempt vertex.x vertex.z connectedLines.length] }
  else
    let directions := connectedLines.map fun line =>
      let other := if line.start = vertex then line.endp else line.start
      normalize (psub other vertex)
    let dirs := directions.insertionSort fun a b => dirAngle a ≤ dirAngle b
    let n := dirs.length
    let angles := (List.range n).map fun i =>
      let d := dirs.getD i ⟨0, 0⟩
      let dnext := dirs.getD ((i + 1) % n) ⟨0, 0⟩
      Real.arccos (max (-1) (min 1 (pdot d dnext)))
    let sumEven := ((angles.enum.filter fun p => p.1 % 2 == 0).map Prod.snd).sum
    let sumOdd := ((angles.enum.filter fun p => p.1 % 2 == 1).map Prod.snd).sum
    let totalSum := sumEven + sumOdd
    let errs1 :=
      if KAWASAKI_JUSTIN.tolerance < |totalSum - KAWASAKI_JUSTIN.angleSumTotal| then
        [Msg.kawasakiTotalSum totalSum]
      else []
    let errorEven := |sumEven - KAWASAKI_JUSTIN.alternatingSumEach|
    let errorOdd := |sumOdd - KAWASAKI_JUSTIN.alternatingSumEach|
    let errs2 :=
      if KAWASAKI_JUSTIN.tolerance < errorEven then [Msg.kawasakiEvenSum sumEven errorEven]
      else []
    let errs3 :=
      if KAWASAKI_JUSTIN.tolerance < errorOdd then [Msg.kawasakiOddSum sumOdd errorOdd]
      else []
    let errors := errs1 ++ errs2 ++ errs3
    { valid := errors.isEmpty
      theoremId := "kawasaki-justin"
      errors := errors
      warnings := [] }

/-- The body of the per-vertex `forEach` in `validateKawasakiJustin`:
errors of invalid vertices and all warnings are accumulated, `valid` is
and-ed. -/
def kjStep (allLines : List FoldLine) (result : ValidationResult) (vertex : Pt) :
    ValidationResult :=
  let vr := verifyKawasakiJustinAtVertex vertex (findConnectedLines vertex allLines 0.001)
  { result with
      valid := result.valid && vr.valid
      errors := result.errors ++ (if vr.valid then [] else vr.errors)
      warnings := result.warnings ++ vr.warnings }

/-- `validateKawasakiJustin(pattern)` from theorems.ts: run the per-vertex
check at every extracted vertex, accumulating errors of invalid vertices and
all warnings. -/
def validateKawasakiJustin (pattern : FoldPattern) : ValidationResult :=
  (extractVertices pattern.foldLines).foldl (kjStep pattern.foldLines)
    { valid := true, theoremId := "kawasaki-justin", errors := [], warnings := [] }

/-- The `(angle, type)` pairs built at the top of `getVertexType`. -/
structure AngleType where
  angle : ℝ
  type : FoldKind

/-- `getVertexType(vertex, connectedLines)` from theorems.ts. -/
def getVertexType (vertex : Pt) (connectedLines : List FoldLine) : VertexTypeInfo :=
  let foldData := connectedLines.map fun line =>
    let other := if distanceTo line.start vertex < 0.001 then line.endp else line.start
    let dir := normalize (psub other vertex)
    ({ angle := atan2 dir.z dir.x, type := line.type } : AngleType)
  let sorted := foldData.insertionSort fun a b => a.angle ≤ b.angle
  let sequence : List FoldSym := sorted.map fun f =>
    match f.type with
    | .mountain => .M
    | .valley => .V
    | .cut => .C
  let n := sorted.length
  let angles := (List.range n).map fun i =>
    let diff := (sorted.getD ((i + 1) % n) ⟨0, .cut⟩).angle - (sorted.getD i ⟨0, .cut⟩).angle
    if diff ≤ 0 then diff + 2 * π else diff
  let mountains := (sequence.filter (· == .M)).length
  let valleys := (sequence.filter (· == .V)).length
  let maekawaDifference := ((mountains : ℤ) - (valleys : ℤ)).natAbs
  let mvCount := mountains + valleys
  let isInterior := decide (MAEKAWA.minFolds ≤ mvCount)
  { vertex := vertex
    degree := connectedLines.length
    sequence := sequence
    mountains := mountains
    valleys := valleys
    maekawaDifference := maekawaDifference
    maekawaSatisfied := !isInterior || (maekawaDifference == MAEKAWA.differenceAbsolute)
    isInterior := isInterior
    angles := angles }

/-- The body of the per-vertex `forEach` in `validateMaekawa`: warning for a
perimeter vertex, error (and `valid := false`) for an interior vertex with
`|M - V| ≠ 2`. -/
def maekawaStep (allLines : List FoldLine) (result : ValidationResult) (vertex : Pt) :
    ValidationResult :=
  let vt := getVertexType vertex (findConnectedLines vertex allLines 0.001)
  if !vt.isInterior then
    { result with
        warnings := result.warnings ++ [.maekawaPerimeter vertex.x vertex.z vt.degree] }
  else if !vt.maekawaSatisfied then
    { result with
        valid := false
        errors := result.errors ++
          [.maekawaViolation vertex.x vertex.z vt.mountains vt.valleys
            vt.maekawaDifference vt.sequence] }
  else result

/-- `validateMaekawa(pattern)` from theorems.ts: warning for each perimeter
vertex, error for each interior vertex with `|M - V| ≠ 2`. -/
def validateMaekawa (pattern : FoldPattern) : ValidationResult :=
  (extractVertices pattern.foldLines).foldl (maekawaStep pattern.foldLines)
    { valid := true, theoremId := "maekawa", errors := [], warnings := [] }

/-- The `for`-scan of the crimping loop that locates the smallest angle:
start at index 0, replace only on strictly smaller values (first minimum
wins), exactly as in `checkVertexValidity`. -/
def findMinAngle (angles : List ℝ) : ℕ × ℝ :=
  (angles.enum.drop 1).foldl
    (fun best p => if p.2 < best.2 then p else best)
    (0, angles.getD 0 0)

/-- The `while (types.length > 2)` crimping reduction of `checkVertexValidity`,
with the in-place `splice`/index-assignment steps expressed functionally.
`fuel` bounds the iteration count; every pass removes two folds, so the
initial call with `fuel = types.length` can never exhaust it (the `fuel = 0`
arm is unreachable and mirrors the loop's normal exit). -/
def crimpLoop : ℕ → List FoldSym → List ℝ → ℕ → List CrimpStep →
    List CrimpStep × Option FailureReason
  | 0, _, _, _, acc => (acc, none)
  | fuel + 1, types, angles, step, acc =>
    if types.length ≤ 2 then (acc, none)
    else
      let m := findMinAngle angles
      let minIdx := m.1
      let minAngle := m.2
      let leftIdx := minIdx
      let rightIdx := (minIdx + 1) % types.length
      let leftType := types.getD leftIdx .C
      let rightType := types.getD rightIdx .C
      if leftType == rightType then
        (acc, some (.cannotCrimp minAngle leftType rightType (step + 1) types))
      else
        let acc' := acc ++ [⟨step + 1, minAngle, (leftType, rightType), types.length - 2⟩]
        if types.length == 3 then
          -- 3 folds -> arrays cleared, loop breaks, result is valid
          (acc', none)
        else
          -- JS `(leftIdx - 1 + angles.length) % angles.length` on ℕ
          let prevIdx := (leftIdx + angles.length - 1) % angles.length
          let nextAngleIdx := if rightIdx < angles.length then rightIdx else 0
          let newAngle := angles.getD prevIdx 0 + angles.getD nextAngleIdx 0 - minAngle
          if leftIdx < rightIdx then
            let types' := (types.eraseIdx rightIdx).eraseIdx leftIdx
            let angles1 := angles.eraseIdx rightIdx
            let angles2 :=
              angles1.set (if 0 < leftIdx then leftIdx - 1 else angles1.length - 1) newAngle
            crimpLoop fuel types' (angles2.eraseIdx leftIdx) (step + 1) acc'
          else
            -- wrapped case: rightIdx = 0, leftIdx = types.length - 1
            let types' := (types.eraseIdx leftIdx).eraseIdx 0
            let angles1 := angles.eraseIdx leftIdx
            let angles' :=
              if 0 < angles1.length then
                (angles1.set (angles1.length - 1) newAngle).eraseIdx 0
              else angles1
            crimpLoop fuel types' angles' (step + 1) acc'

/-- `checkVertexValidity(vertexType)` from theorems.ts.  Note that the source
copies the *unfiltered* `vertexType.angles` into the working array while the
fold types are filtered to M/V only. -/
def checkVertexValidity (vertexType : VertexTypeInfo) : VertexValidityResult :=
  let mvSequence := vertexType.sequence.filter (fun s => s != .C)
  let mvAngles := vertexType.angles
  if mvSequence.length < 4 then
    { valid := true, vertexType := vertexType, crimpSteps := [], failureReason := none }
  else if !vertexType.maekawaSatisfied then
    { valid := false
      vertexType := vertexType
      crimpSteps := []
      failureReason := some (.maekawaViolated vertexType.maekawaDifference) }
  else
    let r := crimpLoop mvSequence.length mvSequence mvAngles 0 []
    { valid := r.2.isNone
      vertexType := vertexType
      crimpSteps := r.1
      failureReason := r.2 }

/-- The body of the per-vertex `forEach` in `validateVertexValidity`. -/
def vertexValidityStep (allLines : List FoldLine) (result : ValidationResult)
    (vertex : Pt) : ValidationResult :=
  let vt := getVertexType vertex (findConnectedLines vertex allLines 0.001)
  if !vt.isInterior then result
  else
    let validity := checkVertexValidity vt
    if !validity.valid then
      { result with
          valid := false
          errors := result.errors ++
            [.vertexInvalid vertex.x vertex.z vt.sequence validity.failureReason] }
    else if 0 < validity.crimpSteps.length then
      { result with
          warnings := result.warnings ++
            [.vertexCrimpOk vertex.x vertex.z vt.sequence validity.crimpSteps.length] }
    else result

/-- `validateVertexValidity(pattern)` from theorems.ts: skip perimeter
vertices, error on crimp-invalid vertices, warn on vertices that needed at
least one crimp. -/
def validateVertexValidity (pattern : FoldPattern) : ValidationResult :=
  (extractVertices pattern.foldLines).foldl (vertexValidityStep pattern.foldLines)
    { valid := true, theoremId := "vertex-validity", errors := [], warnings := [] }

/-- `validateTabDesign(config)` from theorems.ts: informational warning about
the expected tab depth, error when it is below `thickness × 5`. -/
def validateTabDesign (config : PatternConfig) : ValidationResult :=
  let minDim := min config.width (min config.height config.depth)
  let expectedCoeff := depthCoefficient config.shapeType
  let expectedTabDepth := minDim * expectedCoeff
  let warnings := [Msg.tabDepthNote expectedTabDepth expectedCoeff minDim]
  let minFeatureSize := config.thickness * minFeatureSizeMultiplier
  let actualTabDepth := minDim * expectedCoeff
  if actualTabDepth < minFeatureSize then
    { valid := false
      theoremId := "assembly-mechanics-tabs"
      errors := [.tabDepthTooSmall actualTabDepth minFeatureSize]
      warnings := warnings }
  else
    { valid := true
      theoremId := "assembly-mechanics-tabs"
      errors := []
      warnings := warnings }

/-- `validateThickness(config)` from theorems.ts: warns (never errors) when
thickness exceeds 10% of the smallest dimension. -/
def validateThickness (config : PatternConfig) : ValidationResult :=
  let minDim := min config.width (min config.height config.depth)
  if minDim * 0.1 < config.thickness then
    { valid := true
      theoremId := "assembly-mechanics-thickness"
      errors := []
      warnings := [.thicknessTooThick config.thickness minDim] }
  else
    { valid := true
      theoremId := "assembly-mechanics-thickness"
      errors := []
      warnings := [] }

/-- `validateTabSlitPairing(pattern)` from theorems.ts: a structural
placeholder that always passes with an explanatory warning (the
mountain-fold/cut-line counts it computes go only to the unmodelled `details`
payload). -/
def validateTabSlitPairing (_pattern : FoldPattern) : ValidationResult :=
  { valid := true
    theoremId := "assembly-mechanics-pairing"
    errors := []
    warnings := [.pairingNotImplemented] }

/-- `validatePattern(pattern, config)` from theorems.ts: all six validators
always run; `overall` is the conjunction of their `valid` flags. -/
def validatePattern (pattern : FoldPattern) (config : PatternConfig) :
    PatternValidation :=
  let theoremResults :=
    [validateKawasakiJustin pattern,
     validateMaekawa pattern,
     validateVertexValidity pattern,
     validateTabDesign config,
     validateThickness config,
     validateTabSlitPairing pattern]
  { overall := theoremResults.all fun r => r.valid
    theorems := theoremResults
    timestamp := 0 }

/-! ## Concrete inputs used by the spec scenarios -/

/-- The spec's box scenario configuration `{box, width=5, height=3, depth=5,
thickness=0.5}`. -/
def boxScenarioConfig : PatternConfig := ⟨.box, 5, 3, 5, 0.5⟩

/-- The fold lines of `generateBoxPattern(boxScenarioConfig)` with all
coordinates evaluated (tab depth `min(5,3,5)·0.15 = 0.45`); proved equal to
the generator output below. -/
def boxScenarioLines : List FoldLine :=
  [⟨⟨-2.5, -5.5⟩, ⟨2.5, -5.5⟩, .cut⟩,
   ⟨⟨2.5, -5.5⟩, ⟨2.5, -2.5⟩, .cut⟩,
   ⟨⟨-2.5, -5.5⟩, ⟨-2.5, -2.5⟩, .cut⟩,
   ⟨⟨-5.5, -2.5⟩, ⟨-5.5, 2.5⟩, .cut⟩,
   ⟨⟨-5.5, -2.5⟩, ⟨-2.5, -2.5⟩, .cut⟩,
   ⟨⟨-5.5, 2.5⟩, ⟨-2.5, 2.5⟩, .cut⟩,
   ⟨⟨5.5, -2.5⟩, ⟨5.5, 2.5⟩, .cut⟩,
   ⟨⟨2.5, -2.5⟩, ⟨5.5, -2.5⟩, .cut⟩,
   ⟨⟨2.5, 2.5⟩, ⟨5.5, 2.5⟩, .cut⟩,
   ⟨⟨-2.5, 2.5⟩, ⟨-2.5, 5.5⟩, .cut⟩,
   ⟨⟨2.5, 2.5⟩, ⟨2.5, 5.5⟩, .cut⟩,
   ⟨⟨-2.5, 10.5⟩, ⟨2.5, 10.5⟩, .cut⟩,
   ⟨⟨-2.5, 10.5⟩, ⟨-2.5, 5.5⟩, .cut⟩,
   ⟨⟨2.5, 10.5⟩, ⟨2.5, 5.5⟩, .cut⟩,
   ⟨⟨-2.5, -2.5⟩, ⟨2.5, -2.5⟩, .mountain⟩,
   ⟨⟨-2.5, 2.5⟩, ⟨2.5, 2.5⟩, .mountain⟩,
   ⟨⟨-2.5, -2.5⟩, ⟨-2.5, 2.5⟩, .mountain⟩,
   ⟨⟨2.5, -2.5⟩, ⟨2.5, 2.5⟩, .mountain⟩,
   ⟨⟨-2.5, 5.5⟩, ⟨2.5, 5.5⟩, .mountain⟩,
   ⟨⟨-2.5, -5.5⟩, ⟨-2.5, -2.5⟩, .mountain⟩,
   ⟨⟨-2.5, -5.5⟩, ⟨-2.95, -5.05⟩, .cut⟩,
   ⟨⟨-2.95, -5.05⟩, ⟨-2.95, -2.95⟩, .cut⟩,
   ⟨⟨-2.95, -2.95⟩, ⟨-2.5, -2.5⟩, .cut⟩,
   ⟨⟨2.5, -2.5⟩, ⟨2.5, -5.5⟩, .mountain⟩,
   ⟨⟨2.5, -2.5⟩, ⟨2.95, -2.95⟩, .cut⟩,
   ⟨⟨2.95, -2.95⟩, ⟨2.95, -5.05⟩, .cut⟩,
   ⟨⟨2.95, -5.05⟩, ⟨2.5, -5.5⟩, .cut⟩,
   ⟨⟨-2.5, 10.5⟩, ⟨-2.5, 5.5⟩, .mountain⟩,
   ⟨⟨-2.5, 10.5⟩, ⟨-2.05, 9.75⟩, .cut⟩,
   ⟨⟨-2.05, 9.75⟩, ⟨-2.05, 6.25⟩, .cut⟩,
   ⟨⟨-2.05, 6.25⟩, ⟨-2.5, 5.5⟩, .cut⟩,
   ⟨⟨2.5, 5.5⟩, ⟨2.5, 10.5⟩, .mountain⟩,
   ⟨⟨2.5, 5.5⟩, ⟨2.05, 6.25⟩, .cut⟩,
   ⟨⟨2.05, 6.25⟩, ⟨2.05, 9.75⟩, .cut⟩,
   ⟨⟨2.05, 9.75⟩, ⟨2.5, 10.5⟩, .cut⟩,
   ⟨⟨-2.5, 10.5⟩, ⟨2.5, 10.5⟩, .mountain⟩,
   ⟨⟨-2.5, 10.5⟩, ⟨-1.75, 10.05⟩, .cut⟩,
   ⟨⟨-1.75, 10.05⟩, ⟨1.75, 10.05⟩, .cut⟩,
   ⟨⟨1.75, 10.05⟩, ⟨2.5, 10.5⟩, .cut⟩,
   ⟨⟨-5.5, -1.75⟩, ⟨-5.5, 1.75⟩, .cut⟩,
   ⟨⟨5.5, -1.75⟩, ⟨5.5, 1.75⟩, .cut⟩]

/-- The spec's crimping scenario vertex: a synthetic degree-6 vertex with
circular type `MMMVVV` and six equal 60° sectors.  The derived fields carry
the values `getVertexType` computes for such a vertex: M = V = 3, so
`|M - V| = 0`, the vertex is interior (M+V = 6 ≥ 4) and the Maekawa predicate
`!isInterior || diff == 2` is `false`. -/
def mmmvvvVertexType : VertexTypeInfo :=
  { vertex := ⟨0, 0⟩
    degree := 6
    sequence := [.M, .M, .M, .V, .V, .V]
    mountains := 3
    valleys := 3
    maekawaDifference := 0
    maekawaSatisfied := false
    isInterior := true
    angles := [π / 3, π / 3, π / 3, π / 3, π / 3, π / 3] }

/-- The same synthetic vertex with the Maekawa flag forcibly set to `true`,
to observe what the crimping reduction itself does when the Maekawa
prerequisite gate is bypassed. -/
def mmmvvvBypassVertexType : VertexTypeInfo :=
  { mmmvvvVertexType with maekawaSatisfied := true }

/-! ## Helper lemmas -/

lemma plength_eval {x z l : ℝ} (hl : 0 ≤ l) (h : x ^ 2 + z ^ 2 = l ^ 2) :
    plength ⟨x, z⟩ = l := by
  simp only [plength]
  rw [h, Real.sqrt_sq hl]

lemma normalize_eval {x z l : ℝ} (hl : 0 < l) (h : x ^ 2 + z ^ 2 = l ^ 2) :
    normalize ⟨x, z⟩ = ⟨x / l, z / l⟩ := by
  have hp : plength ⟨x, z⟩ = l := plength_eval hl.le h
  simp only [normalize, hp]
  rw [if_neg (ne_of_gt hl)]

lemma distanceTo_lt_iff {p q : Pt} {t : ℝ} (ht : 0 < t) :
    distanceTo p q < t ↔ (p.x - q.x) ^ 2 + (p.z - q.z) ^ 2 < t ^ 2 := by
  simp only [distanceTo, plength, psub]
  exact Real.sqrt_lt' ht

/-- The 1e-3 vertex-clustering comparison, in square-free form so that
`norm_num` can decide it on rational inputs. -/
lemma near_iff (p q : Pt) :
    distanceTo p q < 0.001 ↔ (p.x - q.x) ^ 2 + (p.z - q.z) ^ 2 < 0.000001 := by
  rw [distanceTo_lt_iff (by norm_num : (0 : ℝ) < 0.001)]
  norm_num

lemma mem_insertVertex {p : Pt} {vs : List Pt} (h : p ∈ vs) (q : Pt) :
    p ∈ insertVertex vs q := by
  unfold insertVertex
  split
  · exact h
  · exact List.mem_append_left _ h

/-- `extractVertices` only ever appends: membership in the accumulator is
preserved by the rest of the fold. -/
lemma mem_extractVertices_foldl {p : Pt} :
    ∀ (ls : List FoldLine) (acc : List Pt), p ∈ acc →
      p ∈ ls.foldl (fun a l => insertVertex (insertVertex a l.start) l.endp) acc := by
  intro ls
  induction ls with
  | nil => intro acc h; simpa using h
  | cons l ls ih =>
    intro acc h
    exact ih _ (mem_insertVertex (mem_insertVertex h _) _)

/-- The accumulated `valid` flag of the Kawasaki–Justin fold is the
conjunction of the per-vertex verdicts. -/
lemma validateKJ_foldl_valid (allLines : List FoldLine) :
    ∀ (vs : List Pt) (init : ValidationResult),
      (vs.foldl (kjStep allLines) init).valid =
      (init.valid && vs.all fun v =>
        (verifyKawasakiJustinAtVertex v (findConnectedLines v allLines 0.001)).valid) := by
  intro vs
  induction vs with
  | nil => intro init; simp
  | cons v vs ih =>
    intro init
    simp only [List.foldl_cons, List.all_cons, ih, kjStep, Bool.and_assoc]

lemma validateKawasakiJustin_valid (p : FoldPattern) :
    (validateKawasakiJustin p).valid =
      ((extractVertices p.foldLines).all fun v =>
        (verifyKawasakiJustinAtVertex v (findConnectedLines v p.foldLines 0.001)).valid) := by
  unfold validateKawasakiJustin
  rw [validateKJ_foldl_valid]
  simp

/-- `overall` is an AND over all six validators, so a failed tab-design check
alone forces `overall = false` (no other validator needs to be evaluated). -/
lemma overall_false_of_tabDesign (p : FoldPattern) (c : PatternConfig)
    (h : (validateTabDesign c).valid = false) :
    (validatePattern p c).overall = false := by
  simp [validatePattern, h]

/-! ## Claims -/

/-- C2: The shape generators ignore the documented unused dimensions: the
pyramid patterns for `(width=10, depth=5)` and `(width=15, depth=5)` coincide
(base size is `min(width, depth)`), prism and cylinder patterns are
independent of `depth`, and envelope patterns are independent of `height`. -/
theorem C2_unused_dimensions :
    (∀ h t : ℝ, generatePyramidPattern ⟨.pyramid, 10, h, 5, t⟩ =
        generatePyramidPattern ⟨.pyramid, 15, h, 5, t⟩) ∧
    (∀ w h d d' t : ℝ, generatePrismPattern ⟨.prism, w, h, d, t⟩ =
        generatePrismPattern ⟨.prism, w, h, d', t⟩) ∧
    (∀ w h d d' t : ℝ, generateCylinderPattern ⟨.cylinder, w, h, d, t⟩ =
        generateCylinderPattern ⟨.cylinder, w, h, d', t⟩) ∧
    (∀ w h h' d t : ℝ, generateEnvelopePattern ⟨.envelope, w, h, d, t⟩ =
        generateEnvelopePattern ⟨.envelope, w, h', d, t⟩) := by
  refine ⟨fun h t => ?_, fun w h d d' t => rfl, fun w h d d' t => rfl,
    fun w h h' d t => rfl⟩
  simp only [generatePyramidPattern]
  rw [show min (10 : ℝ) 5 = 5 from by norm_num [min_def],
    show min (15 : ℝ) 5 = 5 from by norm_num [min_def]]

/-- C5 counterexample: on a zero-length base edge, `generateLockingTab` does
not fail — it returns a zero-area tab whose four outline vertices all equal
the base point, and `generateSlit` returns a zero-length cut.  No
`DegenerateGeometry` error path exists in the source. -/
theorem C5_counterexample :
    (generateLockingTab ⟨1, 2⟩ ⟨1, 2⟩ 3 true).vertices =
      ([⟨1, 2⟩, ⟨1, 2⟩, ⟨1, 2⟩, ⟨1, 2⟩] : List Pt) ∧
    generateSlit ⟨1, 2⟩ ⟨1, 2⟩ 0.8 = [fold ⟨1, 2⟩ ⟨1, 2⟩ .cut] := by
  have h0 : psub (⟨1, 2⟩ : Pt) ⟨1, 2⟩ = ⟨0, 0⟩ := by simp [psub]
  have hl : plength (⟨0, 0⟩ : Pt) = 0 := by
    simp [plength]
  have hn : normalize (⟨0, 0⟩ : Pt) = ⟨0, 0⟩ := by
    simp [normalize]
  constructor <;>
    simp [generateLockingTab, generateSlit, h0, hl, hn, padd, psub, pscale, pneg, fold]

/-- C5 (amended): `generateLockingTab` and `generateSlit` perform no
degeneracy check: for every coincident start/end point they return a
zero-area tab (all four outline vertices equal the base point, all four fold
lines zero-length) resp. a single zero-length cut, instead of failing. -/
theorem C5_degenerate_edge_returns_zero_area (p : Pt) (d : ℝ) (inw : Bool) :
    (generateLockingTab p p d inw).vertices = [p, p, p, p] ∧
    (generateLockingTab p p d inw).foldLines =
      [fold p p .mountain, fold p p .cut, fold p p .cut, fold p p .cut] ∧
    ∀ r : ℝ, generateSlit p p r = [fold p p .cut] := by
  have h0 : psub p p = ⟨0, 0⟩ := by simp [psub]
  have hl : plength (⟨0, 0⟩ : Pt) = 0 := by simp [plength]
  have hn : normalize (⟨0, 0⟩ : Pt) = ⟨0, 0⟩ := by simp [normalize]
  refine ⟨?_, ?_, fun r => ?_⟩ <;> cases inw <;>
    simp [generateLockingTab, generateSlit, h0, hl, hn, padd, psub, pscale, pneg, fold]

/-- C8: For `{cylinder, width=5, height=10}` the generated body rectangle has
width exactly `2π·2.5` (hence within 1e-3 of it), independent of the `depth`
value supplied in the configuration. -/
theorem C8_cylinder_body_width (d t : ℝ) :
    (((generateCylinderPattern ⟨.cylinder, 5, 10, d, t⟩).vertices.getD 1 ⟨0, 0⟩).x -
      ((generateCylinderPattern ⟨.cylinder, 5, 10, d, t⟩).vertices.getD 0 ⟨0, 0⟩).x
        = 2 * π * 2.5) ∧
    (|((generateCylinderPattern ⟨.cylinder, 5, 10, d, t⟩).vertices.getD 1 ⟨0, 0⟩).x -
      ((generateCylinderPattern ⟨.cylinder, 5, 10, d, t⟩).vertices.getD 0 ⟨0, 0⟩).x -
        2 * π * 2.5| ≤ 0.001) ∧
    ∀ d' : ℝ, generateCylinderPattern ⟨.cylinder, 5, 10, d', t⟩ =
      generateCylinderPattern ⟨.cylinder, 5, 10, d, t⟩ := by
  have hv : (generateCylinderPattern ⟨.cylinder, 5, 10, d, t⟩).vertices =
      [⟨0, 0⟩, ⟨2 * π * (5 / 2), 0⟩, ⟨2 * π * (5 / 2), 10⟩, ⟨0, 10⟩] := by
    simp [generateCylinderPattern, v2]
  refine ⟨?_, ?_, fun d' => rfl⟩
  · rw [hv]
    simp only [List.getD_cons_succ, List.getD_cons_zero]
    ring
  · rw [hv]
    simp only [List.getD_cons_succ, List.getD_cons_zero]
    rw [show (2 * π * (5 / 2) - 0 - 2 * π * 2.5 : ℝ) = 0 by ring]
    norm_num

lemma foldl_preserves {α β : Type} (P : β → Prop) (f : β → α → β)
    (hf : ∀ b a, P b → P (f b a)) :
    ∀ (l : List α) (init : β), P init → P (l.foldl f init) := by
  intro l
  induction l with
  | nil => intro init h; simpa using h
  | cons a l ih => intro init h; exact ih _ (hf _ _ h)

/-- C4 counterexample: for the non-positive-dimension configuration
`{box, width=-1, ...}` generation does not fail — `generatePattern` returns
the complete six-face box pattern (there is no `InvalidDimension` check and no
throw statement anywhere in the generators). -/
theorem C4_counterexample :
    (generatePattern ⟨.box, -1, 2, 3, 0.5⟩).faces.length = 6 ∧
    (generatePattern ⟨.box, -1, 2, 3, 0.5⟩).name = "Box (Glue-Free)" :=
  ⟨rfl, rfl⟩

/-- C4 (amended): pattern generation performs no dimension validation: for
every configuration, including any with a non-positive width, height, depth
or thickness, every shape generator is total and returns a complete pattern
(non-empty face list) instead of failing with an `InvalidDimension` error. -/
theorem C4_no_dimension_validation (s : ShapeType) (w h d t : ℝ)
    (hnp : w ≤ 0 ∨ h ≤ 0 ∨ d ≤ 0 ∨ t ≤ 0) :
    (generatePattern ⟨s, w, h, d, t⟩).faces ≠ [] := by
  cases s
  case box => simp [generatePattern, generateBoxPattern]
  case pyramid => simp [generatePattern, generatePyramidPattern]
  case envelope => simp [generatePattern, generateEnvelopePattern]
  case cylinder => simp [generatePattern, generateCylinderPattern]
  case prism =>
    have hlen : 0 < (generatePrismPattern ⟨.prism, w, h, d, t⟩).faces.length := by
      unfold generatePrismPattern
      refine foldl_preserves
        (fun st : List Pt × List FoldLine × List (List ℕ) => 0 < st.2.2.length) _
        ?_ _ _ (by simp)
      intro b a hb
      simp
    exact List.length_pos.mp hlen

/-- C4 witness: the amended theorem applied at the concrete non-positive
input `{box, width=-1, height=1, depth=1, thickness=1}`. -/
theorem C4_no_dimension_validation_witness :
    ((-1 : ℝ) ≤ 0 ∨ (1 : ℝ) ≤ 0 ∨ (1 : ℝ) ≤ 0 ∨ (1 : ℝ) ≤ 0) ∧
    (generatePattern ⟨.box, -1, 1, 1, 1⟩).faces ≠ [] :=
  ⟨Or.inl (by simp), C4_no_dimension_validation .box (-1) 1 1 1 (Or.inl (by simp))⟩

/-- C9: `validateTabDesign` applies the envelope coefficient 0.10 from the
`ASSEMBLY_MECHANICS` table: it errors exactly when
`0.10 · min(width, height, depth) < 5 · thickness`, even though the generated
envelope pattern has no locking tabs at all (not a single mountain fold), so
an envelope configuration can fail `overall` validation on a tab that does
not exist — e.g. `{envelope, 10, 10, 10, thickness=1}`. -/
theorem C9_envelope_tab_design (w h d t : ℝ) :
    ((validateTabDesign ⟨.envelope, w, h, d, t⟩).valid = false ↔
      min w (min h d) * 0.10 < t * 5) ∧
    ((validateTabDesign ⟨.envelope, w, h, d, t⟩).errors ≠ [] ↔
      min w (min h d) * 0.10 < t * 5) ∧
    (generateEnvelopePattern ⟨.envelope, w, h, d, t⟩).foldLines.filter
      (fun l => l.type == .mountain) = [] ∧
    (validatePattern (generateEnvelopePattern ⟨.envelope, 10, 10, 10, 1⟩)
      ⟨.envelope, 10, 10, 10, 1⟩).overall = false := by
  refine ⟨?_, ?_, ?_, ?_⟩
  · unfold validateTabDesign
    simp only [depthCoefficient, minFeatureSizeMultiplier]
    split
    next hc => simp [hc]
    next hc => simp [hc]
  · unfold validateTabDesign
    simp only [depthCoefficient, minFeatureSizeMultiplier]
    split
    next hc => simp [hc]
    next hc => simp [hc]
  · simp [generateEnvelopePattern, fold]
  · refine overall_false_of_tabDesign _ _ ?_
    unfold validateTabDesign
    simp only [depthCoefficient, minFeatureSizeMultiplier]
    rw [if_pos (by norm_num [min_def])]

/-- C3 counterexample: `checkVertexValidity` on the synthetic degree-6
`MMMVVV` vertex with six equal 60° sectors performs **zero** crimps (not one):
since M = V = 3 gives `|M - V| = 0 ≠ 2`, the Maekawa prerequisite fails first
and the failure reason names the Maekawa violation, not a same-type fold
pair. -/
theorem C3_counterexample :
    (checkVertexValidity mmmvvvVertexType).valid = false ∧
    (checkVertexValidity mmmvvvVertexType).crimpSteps = [] ∧
    (checkVertexValidity mmmvvvVertexType).failureReason =
      some (.maekawaViolated 0) := by
  have hf : (List.filter (fun s => s != FoldSym.C)
      [FoldSym.M, FoldSym.M, FoldSym.M, FoldSym.V, FoldSym.V, FoldSym.V]) =
      [FoldSym.M, FoldSym.M, FoldSym.M, FoldSym.V, FoldSym.V, FoldSym.V] := by decide
  refine ⟨?_, ?_, ?_⟩ <;> simp [checkVertexValidity, mmmvvvVertexType, hf]

/-- C3 (amended): on the synthetic `MMMVVV`/60° vertex `checkVertexValidity`
returns invalid immediately with zero crimp steps and a failure reason naming
the violated Maekawa prerequisite (`|M-V| = 0`); and even if the Maekawa gate
is bypassed, the very first reduction step finds the smallest sector bounded
by the same-type pair (M, M) and fails at step 1, again with zero crimps
performed — the claimed single crimp to an `MMVV` vertex never happens. -/
theorem C3_crimping_maekawa_gate :
    ((checkVertexValidity mmmvvvVertexType).valid = false ∧
      (checkVertexValidity mmmvvvVertexType).crimpSteps = [] ∧
      (checkVertexValidity mmmvvvVertexType).failureReason =
        some (.maekawaViolated 0)) ∧
    ((checkVertexValidity mmmvvvBypassVertexType).valid = false ∧
      (checkVertexValidity mmmvvvBypassVertexType).crimpSteps = [] ∧
      (checkVertexValidity mmmvvvBypassVertexType).failureReason =
        some (.cannotCrimp (π / 3) .M .M 1 [.M, .M, .M, .V, .V, .V])) := by
  have hf : (List.filter (fun s => s != FoldSym.C)
      [FoldSym.M, FoldSym.M, FoldSym.M, FoldSym.V, FoldSym.V, FoldSym.V]) =
      [FoldSym.M, FoldSym.M, FoldSym.M, FoldSym.V, FoldSym.V, FoldSym.V] := by decide
  constructor
  · refine ⟨?_, ?_, ?_⟩ <;> simp [checkVertexValidity, mmmvvvVertexType, hf]
  · have hmin : findMinAngle [π / 3, π / 3, π / 3, π / 3, π / 3, π / 3] = (0, π / 3) := by
      simp [findMinAngle, List.enum, List.enumFrom]
    have hloop : crimpLoop 6 [.M, .M, .M, .V, .V, .V]
        [π / 3, π / 3, π / 3, π / 3, π / 3, π / 3] 0 [] =
        ([], some (.cannotCrimp (π / 3) .M .M 1 [.M, .M, .M, .V, .V, .V])) := by
      rw [show (6 : ℕ) = 5 + 1 from rfl, crimpLoop]
      rw [if_neg (by decide :
        ¬([FoldSym.M, FoldSym.M, FoldSym.M, FoldSym.V, FoldSym.V, FoldSym.V].length ≤ 2))]
      simp [hmin]
    refine ⟨?_, ?_, ?_⟩ <;>
      simp [checkVertexValidity, mmmvvvBypassVertexType, mmmvvvVertexType, hf, hloop]

/-- C7: for every non-degenerate base edge and positive tab depth,
`generateLockingTab` returns a trapezoid whose tip width (distance between
the two inset tip corners, `vertices[3]` to `vertices[2]`) equals exactly
0.7 × the base width — in particular within the claimed 1e-6 — and whose
fold lines are one mountain fold along the base followed by three cut lines
outlining the tapered tip. -/
theorem C7_tab_taper (a b : Pt) (d : ℝ) (inw : Bool) (hab : a ≠ b) (hd : 0 < d) :
    distanceTo ((generateLockingTab a b d inw).vertices.getD 3 ⟨0, 0⟩)
        ((generateLockingTab a b d inw).vertices.getD 2 ⟨0, 0⟩)
      = 0.7 * distanceTo a b ∧
    |distanceTo ((generateLockingTab a b d inw).vertices.getD 3 ⟨0, 0⟩)
        ((generateLockingTab a b d inw).vertices.getD 2 ⟨0, 0⟩)
      - 0.7 * distanceTo a b| ≤ 0.000001 ∧
    (generateLockingTab a b d inw).foldLines.map (fun l => l.type)
      = [.mountain, .cut, .cut, .cut] ∧
    ((generateLockingTab a b d inw).foldLines.getD 0 (fold ⟨0, 0⟩ ⟨0, 0⟩ .cut)).start = a ∧
    ((generateLockingTab a b d inw).foldLines.getD 0 (fold ⟨0, 0⟩ ⟨0, 0⟩ .cut)).endp = b := by
  obtain ⟨ax, az⟩ := a
  obtain ⟨bx, bz⟩ := b
  have hne : bx - ax ≠ 0 ∨ bz - az ≠ 0 := by
    by_contra hcon
    push_neg at hcon
    exact hab (by ext <;> dsimp <;> linarith [hcon.1, hcon.2])
  have hsum : 0 < (bx - ax) ^ 2 + (bz - az) ^ 2 := by
    rcases hne with hx | hz
    · exact add_pos_of_pos_of_nonneg (pow_two_pos_of_ne_zero hx) (sq_nonneg _)
    · exact add_pos_of_nonneg_of_pos (sq_nonneg _) (pow_two_pos_of_ne_zero hz)
  have hL : 0 < Real.sqrt ((bx - ax) ^ 2 + (bz - az) ^ 2) := Real.sqrt_pos.mpr hsum
  set L := Real.sqrt ((bx - ax) ^ 2 + (bz - az) ^ 2) with hLdef
  have hplength : plength (psub ⟨bx, bz⟩ ⟨ax, az⟩) = L := by
    simp [plength, psub, hLdef]
  have hnorm : normalize (psub ⟨bx, bz⟩ ⟨ax, az⟩) =
      ⟨(bx - ax) / L, (bz - az) / L⟩ := by
    rw [normalize, hplength, if_neg (ne_of_gt hL)]
    simp [psub]
  have hdistab : distanceTo ⟨ax, az⟩ ⟨bx, bz⟩ = L := by
    simp only [distanceTo, plength, psub]
    rw [show (ax - bx) ^ 2 + (az - bz) ^ 2 = (bx - ax) ^ 2 + (bz - az) ^ 2 by ring]
  have htip : ∀ px pz : ℝ,
      distanceTo
        (padd (padd ⟨ax, az⟩ (pscale ⟨px, pz⟩ d))
          (pscale ⟨(bx - ax) / L, (bz - az) / L⟩ (L * ((1 - 0.7) / 2))))
        (psub (padd ⟨bx, bz⟩ (pscale ⟨px, pz⟩ d))
          (pscale ⟨(bx - ax) / L, (bz - az) / L⟩ (L * ((1 - 0.7) / 2)))) = 0.7 * L := by
    intro px pz
    simp only [distanceTo, plength, psub, padd, pscale]
    rw [show (ax + px * d + (bx - ax) / L * (L * ((1 - 0.7) / 2)) -
          (bx + px * d - (bx - ax) / L * (L * ((1 - 0.7) / 2)))) ^ 2 +
        (az + pz * d + (bz - az) / L * (L * ((1 - 0.7) / 2)) -
          (bz + pz * d - (bz - az) / L * (L * ((1 - 0.7) / 2)))) ^ 2 =
        (0.7) ^ 2 * ((bx - ax) ^ 2 + (bz - az) ^ 2) from by
      field_simp
      ring]
    rw [Real.sqrt_mul (by norm_num) _, Real.sqrt_sq (by norm_num)]
  refine ⟨?_, ?_, ?_, ?_, ?_⟩ <;>
    cases inw <;>
      simp only [generateLockingTab, hplength, hnorm, pneg, List.getD_cons_succ,
        List.getD_cons_zero, List.map_cons, List.map_nil, fold, hdistab,
        Bool.false_eq_true, if_false, if_true, Bool.cond_decide] <;>
      first
        | (rw [htip]; try norm_num)
        | rfl

/-- C7 witness: the taper theorem applied to the concrete unit base edge
`(0,0)–(1,0)` with tab depth 1. -/
theorem C7_tab_taper_witness :
    ((⟨0, 0⟩ : Pt) ≠ ⟨1, 0⟩) ∧ ((0 : ℝ) < 1) ∧
    (distanceTo ((generateLockingTab ⟨0, 0⟩ ⟨1, 0⟩ 1 true).vertices.getD 3 ⟨0, 0⟩)
        ((generateLockingTab ⟨0, 0⟩ ⟨1, 0⟩ 1 true).vertices.getD 2 ⟨0, 0⟩)
      = 0.7 * distanceTo ⟨0, 0⟩ ⟨1, 0⟩ ∧
    |distanceTo ((generateLockingTab ⟨0, 0⟩ ⟨1, 0⟩ 1 true).vertices.getD 3 ⟨0, 0⟩)
        ((generateLockingTab ⟨0, 0⟩ ⟨1, 0⟩ 1 true).vertices.getD 2 ⟨0, 0⟩)
      - 0.7 * distanceTo ⟨0, 0⟩ ⟨1, 0⟩| ≤ 0.000001 ∧
    (generateLockingTab ⟨0, 0⟩ ⟨1, 0⟩ 1 true).foldLines.map (fun l => l.type)
      = [.mountain, .cut, .cut, .cut] ∧
    ((generateLockingTab ⟨0, 0⟩ ⟨1, 0⟩ 1 true).foldLines.getD 0
        (fold ⟨0, 0⟩ ⟨0, 0⟩ .cut)).start = ⟨0, 0⟩ ∧
    ((generateLockingTab ⟨0, 0⟩ ⟨1, 0⟩ 1 true).foldLines.getD 0
        (fold ⟨0, 0⟩ ⟨0, 0⟩ .cut)).endp = ⟨1, 0⟩) :=
  have hne : (⟨0, 0⟩ : Pt) ≠ ⟨1, 0⟩ := by
    intro hcon
    exact zero_ne_one (congrArg Pt.x hcon)
  ⟨hne, zero_lt_one, C7_tab_taper ⟨0, 0⟩ ⟨1, 0⟩ 1 true hne zero_lt_one⟩

/-- Evaluation of `generateSlit` on an upward vertical edge. -/
lemma generateSlit_vertical (x z1 z2 r : ℝ) (h : z1 < z2) :
    generateSlit ⟨x, z1⟩ ⟨x, z2⟩ r =
      [fold ⟨x, z1 + (z2 - z1) * (1 - r) / 2⟩ ⟨x, z2 - (z2 - z1) * (1 - r) / 2⟩ .cut] := by
  have hplen : plength (psub ⟨x, z2⟩ ⟨x, z1⟩) = z2 - z1 := by
    simp only [plength, psub]
    rw [show (x - x) ^ 2 + (z2 - z1) ^ 2 = (z2 - z1) ^ 2 by ring,
      Real.sqrt_sq (by linarith)]
  have hnorm : normalize (psub ⟨x, z2⟩ ⟨x, z1⟩) = ⟨0, 1⟩ := by
    rw [normalize, hplen, if_neg (by intro hc; linarith : ¬(z2 - z1 = 0))]
    simp only [psub]
    ext
    · simp
    · simp
      rw [div_self (by linarith : z2 - z1 ≠ 0)]
  simp only [generateSlit]
  rw [hplen, hnorm]
  simp only [padd, psub, pscale, fold, List.cons.injEq, FoldLine.mk.injEq,
    Pt.mk.injEq, and_true]
  refine ⟨⟨by ring, by ring⟩, by ring, by ring⟩

/-- C10: in every positive-dimension box pattern, the two insertion slits
(the final two fold lines, on the left face's outer edge and the right face's
outer edge) are each a single cut line produced by `generateSlit` with ratio
0.7 — not the 0.8 default — centered on the host edge (same midpoint) and
covering exactly 70% of its length. -/
theorem C10_box_slits (w h d t : ℝ) (hw : 0 < w) (hh : 0 < h) (hd : 0 < d)
    (ht : 0 < t) :
    ((generateBoxPattern ⟨.box, w, h, d, t⟩).foldLines.drop 39 =
      [fold ⟨-w / 2 - h, -d / 2 + (d / 2 - -d / 2) * (1 - 0.7) / 2⟩
         ⟨-w / 2 - h, d / 2 - (d / 2 - -d / 2) * (1 - 0.7) / 2⟩ .cut,
       fold ⟨w / 2 + h, -d / 2 + (d / 2 - -d / 2) * (1 - 0.7) / 2⟩
         ⟨w / 2 + h, d / 2 - (d / 2 - -d / 2) * (1 - 0.7) / 2⟩ .cut]) ∧
    (generateBoxPattern ⟨.box, w, h, d, t⟩).foldLines.length = 41 ∧
    generateSlit ⟨-w / 2 - h, -d / 2⟩ ⟨-w / 2 - h, d / 2⟩ 0.7 =
      [fold ⟨-w / 2 - h, -d / 2 + (d / 2 - -d / 2) * (1 - 0.7) / 2⟩
         ⟨-w / 2 - h, d / 2 - (d / 2 - -d / 2) * (1 - 0.7) / 2⟩ .cut] ∧
    generateSlit ⟨-w / 2 - h, -d / 2⟩ ⟨-w / 2 - h, d / 2⟩ slitRatioDefault ≠
      [fold ⟨-w / 2 - h, -d / 2 + (d / 2 - -d / 2) * (1 - 0.7) / 2⟩
         ⟨-w / 2 - h, d / 2 - (d / 2 - -d / 2) * (1 - 0.7) / 2⟩ .cut] ∧
    distanceTo ⟨-w / 2 - h, -d / 2 + (d / 2 - -d / 2) * (1 - 0.7) / 2⟩
        ⟨-w / 2 - h, d / 2 - (d / 2 - -d / 2) * (1 - 0.7) / 2⟩
      = 0.7 * distanceTo ⟨-w / 2 - h, -d / 2⟩ ⟨-w / 2 - h, d / 2⟩ ∧
    padd ⟨-w / 2 - h, -d / 2 + (d / 2 - -d / 2) * (1 - 0.7) / 2⟩
        ⟨-w / 2 - h, d / 2 - (d / 2 - -d / 2) * (1 - 0.7) / 2⟩
      = padd ⟨-w / 2 - h, -d / 2⟩ ⟨-w / 2 - h, d / 2⟩ ∧
    distanceTo ⟨w / 2 + h, -d / 2 + (d / 2 - -d / 2) * (1 - 0.7) / 2⟩
        ⟨w / 2 + h, d / 2 - (d / 2 - -d / 2) * (1 - 0.7) / 2⟩
      = 0.7 * distanceTo ⟨w / 2 + h, -d / 2⟩ ⟨w / 2 + h, d / 2⟩ ∧
    padd ⟨w / 2 + h, -d / 2 + (d / 2 - -d / 2) * (1 - 0.7) / 2⟩
        ⟨w / 2 + h, d / 2 - (d / 2 - -d / 2) * (1 - 0.7) / 2⟩
      = padd ⟨w / 2 + h, -d / 2⟩ ⟨w / 2 + h, d / 2⟩ := by
  have hz : -d / 2 < d / 2 := by linarith
  have hslitL := generateSlit_vertical (-w / 2 - h) (-d / 2) (d / 2) 0.7 hz
  have hslitL8 := generateSlit_vertical (-w / 2 - h) (-d / 2) (d / 2) slitRatioDefault hz
  have hslitR := generateSlit_vertical (w / 2 + h) (-d / 2) (d / 2) 0.7 hz
  have hdistL : distanceTo (⟨-w / 2 - h, -d / 2⟩ : Pt) ⟨-w / 2 - h, d / 2⟩ = d := by
    simp only [distanceTo, plength, psub]
    rw [show (-w / 2 - h - (-w / 2 - h)) ^ 2 + (-d / 2 - d / 2) ^ 2 = d ^ 2 by ring,
      Real.sqrt_sq hd.le]
  have hdistR : distanceTo (⟨w / 2 + h, -d / 2⟩ : Pt) ⟨w / 2 + h, d / 2⟩ = d := by
    simp only [distanceTo, plength, psub]
    rw [show (w / 2 + h - (w / 2 + h)) ^ 2 + (-d / 2 - d / 2) ^ 2 = d ^ 2 by ring,
      Real.sqrt_sq hd.le]
  refine ⟨?_, ?_, hslitL, ?_, ?_, ?_, ?_, ?_⟩
  · simp only [generateBoxPattern, generateLockingTab, v2]
    rw [hslitL, hslitR]
    simp [List.drop_succ_cons]
  · simp only [generateBoxPattern, generateLockingTab, v2]
    rw [hslitL, hslitR]
    simp
  · rw [hslitL8]
    intro hc
    have hz1 := congrArg (fun l => ((l.headD (fold ⟨0, 0⟩ ⟨0, 0⟩ .cut)).start).z) hc
    simp only [fold, List.headD_cons, slitRatioDefault] at hz1
    nlinarith [hz1, hd]
  · rw [hdistL]
    simp only [distanceTo, plength, psub]
    rw [show (-w / 2 - h - (-w / 2 - h)) ^ 2 +
        (-d / 2 + (d / 2 - -d / 2) * (1 - 0.7) / 2 -
          (d / 2 - (d / 2 - -d / 2) * (1 - 0.7) / 2)) ^ 2 = (0.7 * d) ^ 2 by ring,
      Real.sqrt_sq (by linarith)]
  · ext <;> simp [padd] <;> ring
  · rw [hdistR]
    simp only [distanceTo, plength, psub]
    rw [show (w / 2 + h - (w / 2 + h)) ^ 2 +
        (-d / 2 + (d / 2 - -d / 2) * (1 - 0.7) / 2 -
          (d / 2 - (d / 2 - -d / 2) * (1 - 0.7) / 2)) ^ 2 = (0.7 * d) ^ 2 by ring,
      Real.sqrt_sq (by linarith)]
  · ext <;> simp [padd] <;> ring

/-- C10 witness: the slit theorem applied at the concrete positive
configuration `{box, 1, 1, 1, 1}`. -/
theorem C10_box_slits_witness :
    ((0 : ℝ) < 1) ∧
    ((generateBoxPattern ⟨.box, 1, 1, 1, 1⟩).foldLines.drop 39 =
      [fold ⟨-1 / 2 - 1, -1 / 2 + ((1 : ℝ) / 2 - -1 / 2) * (1 - 0.7) / 2⟩
         ⟨-1 / 2 - 1, 1 / 2 - ((1 : ℝ) / 2 - -1 / 2) * (1 - 0.7) / 2⟩ .cut,
       fold ⟨1 / 2 + 1, -1 / 2 + ((1 : ℝ) / 2 - -1 / 2) * (1 - 0.7) / 2⟩
         ⟨1 / 2 + 1, 1 / 2 - ((1 : ℝ) / 2 - -1 / 2) * (1 - 0.7) / 2⟩ .cut]) :=
  ⟨zero_lt_one,
    (C10_box_slits 1 1 1 1 zero_lt_one zero_lt_one zero_lt_one zero_lt_one).1⟩

/-- `getVertexType` counts mountains and valleys among the connected fold
lines (the angle-sort is a permutation, so it does not affect the counts, and
cut lines are excluded). -/
lemma getVertexType_counts (v : Pt) (ls : List FoldLine) :
    (getVertexType v ls).mountains =
      (ls.filter fun l => l.type == FoldKind.mountain).length ∧
    (getVertexType v ls).valleys =
      (ls.filter fun l => l.type == FoldKind.valley).length := by
  constructor <;>
  · simp only [getVertexType]
    rw [← List.countP_eq_length_filter, ← List.countP_eq_length_filter, List.countP_map,
      (List.perm_insertionSort _ _).countP_eq, List.countP_map]
    refine List.countP_congr ?_
    intro l _
    cases htype : l.type <;> simp [Function.comp, htype]

lemma getVertexType_isInterior (v : Pt) (ls : List FoldLine) :
    (getVertexType v ls).isInterior = true ↔
      4 ≤ (getVertexType v ls).mountains + (getVertexType v ls).valleys := by
  simp only [getVertexType, MAEKAWA, decide_eq_true_eq]

/-- The stored Maekawa flag is definitionally `!isInterior || (|M-V| == 2)`. -/
lemma getVertexType_maekawaSatisfied_eq (v : Pt) (ls : List FoldLine) :
    (getVertexType v ls).maekawaSatisfied =
      (!(getVertexType v ls).isInterior ||
        ((getVertexType v ls).maekawaDifference == 2)) := rfl

/-- Induction characterization of the `validateMaekawa` fold: `valid` is the
conjunction of the per-vertex Maekawa predicate, and the errors/warnings
count the violating interior resp. the perimeter vertices. -/
lemma maekawa_foldl (allLines : List FoldLine) :
    ∀ (vs : List Pt) (init : ValidationResult),
      ((vs.foldl (maekawaStep allLines) init).valid =
        (init.valid && vs.all fun v =>
          (!(getVertexType v (findConnectedLines v allLines 0.001)).isInterior ||
            ((getVertexType v (findConnectedLines v allLines 0.001)).maekawaDifference
              == 2)))) ∧
      ((vs.foldl (maekawaStep allLines) init).errors.length =
        init.errors.length + (vs.countP fun v =>
          ((getVertexType v (findConnectedLines v allLines 0.001)).isInterior &&
            !((getVertexType v (findConnectedLines v allLines 0.001)).maekawaDifference
              == 2)))) ∧
      ((vs.foldl (maekawaStep allLines) init).warnings.length =
        init.warnings.length + (vs.countP fun v =>
          !(getVertexType v (findConnectedLines v allLines 0.001)).isInterior)) := by
  intro vs
  induction vs with
  | nil => intro init; simp
  | cons v vs ih =>
    intro init
    rcases Bool.eq_false_or_eq_true
        ((getVertexType v (findConnectedLines v allLines 0.001)).isInterior) with hI | hI
    · rcases Bool.eq_false_or_eq_true
          ((getVertexType v
            (findConnectedLines v allLines 0.001)).maekawaDifference == 2) with hD | hD
      · have hstep : maekawaStep allLines init v = init := by
          simp [maekawaStep, getVertexType_maekawaSatisfied_eq, hI, hD]
        refine ⟨?_, ?_, ?_⟩ <;>
          simp only [List.foldl_cons, hstep, List.all_cons, List.countP_cons, ih] <;>
            simp [hI, hD] <;> omega
      · have hstep : maekawaStep allLines init v =
            { init with
                valid := false
                errors := init.errors ++
                  [.maekawaViolation v.x v.z
                    (getVertexType v (findConnectedLines v allLines 0.001)).mountains
                    (getVertexType v (findConnectedLines v allLines 0.001)).valleys
                    (getVertexType v (findConnectedLines v allLines 0.001)).maekawaDifference
                    (getVertexType v (findConnectedLines v allLines 0.001)).sequence] } := by
          simp [maekawaStep, getVertexType_maekawaSatisfied_eq, hI, hD]
        refine ⟨?_, ?_, ?_⟩ <;>
          simp only [List.foldl_cons, hstep, List.all_cons, List.countP_cons, ih] <;>
            simp [hI, hD] <;> omega
    · have hstep : maekawaStep allLines init v =
          { init with warnings := init.warnings ++
              [.maekawaPerimeter v.x v.z
                (getVertexType v (findConnectedLines v allLines 0.001)).degree] } := by
        simp [maekawaStep, hI]
      refine ⟨?_, ?_, ?_⟩ <;>
        simp only [List.foldl_cons, hstep, List.all_cons, List.countP_cons, ih] <;>
          simp [hI] <;> omega

/-- C6: the Maekawa validator classifies each vertex by counting mountain and
valley lines among its connected fold lines with cuts excluded; a vertex is
interior exactly when M+V ≥ 4; the stored Maekawa predicate holds iff the
vertex is exempt or `|M-V| = 2`; and over a whole pattern, `validateMaekawa`
is valid iff every interior vertex satisfies `|M-V| = 2`, with exactly one
error per violating interior vertex and exactly one warning per non-interior
(perimeter) vertex — perimeter vertices are exempted with a warning, never an
error. -/
theorem C6_maekawa_validator (p : FoldPattern) :
    (∀ (v : Pt) (ls : List FoldLine),
      (getVertexType v ls).mountains =
        (ls.filter fun l => l.type == FoldKind.mountain).length ∧
      (getVertexType v ls).valleys =
        (ls.filter fun l => l.type == FoldKind.valley).length ∧
      ((getVertexType v ls).isInterior = true ↔
        4 ≤ (getVertexType v ls).mountains + (getVertexType v ls).valleys) ∧
      ((getVertexType v ls).maekawaSatisfied = true ↔
        ((getVertexType v ls).isInterior = true →
          (getVertexType v ls).maekawaDifference = 2))) ∧
    ((validateMaekawa p).valid = true ↔
      ∀ v ∈ extractVertices p.foldLines,
        (getVertexType v (findConnectedLines v p.foldLines 0.001)).isInterior = true →
          (getVertexType v (findConnectedLines v p.foldLines 0.001)).maekawaDifference
            = 2) ∧
    ((validateMaekawa p).errors.length =
      (extractVertices p.foldLines).countP fun v =>
        ((getVertexType v (findConnectedLines v p.foldLines 0.001)).isInterior &&
          !((getVertexType v (findConnectedLines v p.foldLines 0.001)).maekawaDifference
            == 2))) ∧
    ((validateMaekawa p).warnings.length =
      (extractVertices p.foldLines).countP fun v =>
        !(getVertexType v (findConnectedLines v p.foldLines 0.001)).isInterior) := by
  have hfold := maekawa_foldl p.foldLines (extractVertices p.foldLines)
    { valid := true, theoremId := "maekawa", errors := [], warnings := [] }
  refine ⟨?_, ?_, ?_, ?_⟩
  · intro v ls
    refine ⟨(getVertexType_counts v ls).1, (getVertexType_counts v ls).2,
      getVertexType_isInterior v ls, ?_⟩
    rw [getVertexType_maekawaSatisfied_eq]
    cases hI : (getVertexType v ls).isInterior <;> simp [hI]
  · show ((extractVertices p.foldLines).foldl (maekawaStep p.foldLines) _).valid = true ↔ _
    rw [hfold.1]
    simp only [Bool.true_and, List.all_eq_true]
    refine forall₂_congr fun v hv => ?_
    cases hI : (getVertexType v (findConnectedLines v p.foldLines 0.001)).isInterior <;>
      simp [hI]
  · show ((extractVertices p.foldLines).foldl (maekawaStep p.foldLines) _).errors.length = _
    rw [hfold.2.1]
    simp
  · show ((extractVertices p.foldLines).foldl (maekawaStep p.foldLines) _).warnings.length = _
    rw [hfold.2.2]
    simp

lemma normalize_up3 : normalize (⟨0, 3⟩ : Pt) = ⟨0, 1⟩ := by
  rw [normalize_eval (by norm_num : (0 : ℝ) < 3) (by norm_num)]
  norm_num

lemma normalize_down3 : normalize (⟨0, -3⟩ : Pt) = ⟨0, -1⟩ := by
  rw [normalize_eval (by norm_num : (0 : ℝ) < 3) (by norm_num)]
  norm_num

lemma normalize_down5 : normalize (⟨0, -5⟩ : Pt) = ⟨0, -1⟩ := by
  rw [normalize_eval (by norm_num : (0 : ℝ) < 5) (by norm_num)]
  norm_num

lemma normalize_up5 : normalize (⟨0, 5⟩ : Pt) = ⟨0, 1⟩ := by
  rw [normalize_eval (by norm_num : (0 : ℝ) < 5) (by norm_num)]
  norm_num

lemma normalize_right5 : normalize (⟨5, 0⟩ : Pt) = ⟨1, 0⟩ := by
  rw [normalize_eval (by norm_num : (0 : ℝ) < 5) (by norm_num)]
  norm_num

lemma plength_up3 : plength (⟨0, 3⟩ : Pt) = 3 :=
  plength_eval (by norm_num) (by norm_num)

lemma plength_down3 : plength (⟨0, -3⟩ : Pt) = 3 :=
  plength_eval (by norm_num) (by norm_num)

lemma plength_down5 : plength (⟨0, -5⟩ : Pt) = 5 :=
  plength_eval (by norm_num) (by norm_num)

lemma plength_up5 : plength (⟨0, 5⟩ : Pt) = 5 :=
  plength_eval (by norm_num) (by norm_num)

lemma plength_right5 : plength (⟨5, 0⟩ : Pt) = 5 :=
  plength_eval (by norm_num) (by norm_num)

/-- The box scenario's fold lines evaluate to `boxScenarioLines` (tab depth
`min(5,3,5)·0.15 = 0.45`). -/
lemma boxScenario_foldLines_eq :
    (generateBoxPattern boxScenarioConfig).foldLines = boxScenarioLines := by
  have htd : min (5 : ℝ) (min 3 5) * 0.15 = 0.45 := by norm_num [min_def]
  have hp1 : psub (v2 (-5 / 2) (-5 / 2)) (v2 (-5 / 2) (-5 / 2 - 3)) = (⟨0, 3⟩ : Pt) := by
    norm_num [psub, v2]
  have t1 : (generateLockingTab (v2 (-5 / 2) (-5 / 2 - 3)) (v2 (-5 / 2) (-5 / 2))
      0.45 true).foldLines =
      [⟨⟨-2.5, -5.5⟩, ⟨-2.5, -2.5⟩, .mountain⟩,
       ⟨⟨-2.5, -5.5⟩, ⟨-2.95, -5.05⟩, .cut⟩,
       ⟨⟨-2.95, -5.05⟩, ⟨-2.95, -2.95⟩, .cut⟩,
       ⟨⟨-2.95, -2.95⟩, ⟨-2.5, -2.5⟩, .cut⟩] := by
    simp only [generateLockingTab, hp1, normalize_up3, plength_up3]
    norm_num [padd, psub, pscale, pneg, fold, v2]
  have hp2 : psub (v2 (5 / 2) (-5 / 2 - 3)) (v2 (5 / 2) (-5 / 2)) = (⟨0, -3⟩ : Pt) := by
    norm_num [psub, v2]
  have t2 : (generateLockingTab (v2 (5 / 2) (-5 / 2)) (v2 (5 / 2) (-5 / 2 - 3))
      0.45 true).foldLines =
      [⟨⟨2.5, -2.5⟩, ⟨2.5, -5.5⟩, .mountain⟩,
       ⟨⟨2.5, -2.5⟩, ⟨2.95, -2.95⟩, .cut⟩,
       ⟨⟨2.95, -2.95⟩, ⟨2.95, -5.05⟩, .cut⟩,
       ⟨⟨2.95, -5.05⟩, ⟨2.5, -5.5⟩, .cut⟩] := by
    simp only [generateLockingTab, hp2, normalize_down3, plength_down3]
    norm_num [padd, psub, pscale, pneg, fold, v2]
  have hp3 : psub (v2 (-5 / 2) (5 / 2 + 3)) (v2 (-5 / 2) (5 / 2 + 3 + 5)) =
      (⟨0, -5⟩ : Pt) := by
    norm_num [psub, v2]
  have t3 : (generateLockingTab (v2 (-5 / 2) (5 / 2 + 3 + 5)) (v2 (-5 / 2) (5 / 2 + 3))
      0.45 true).foldLines =
      [⟨⟨-2.5, 10.5⟩, ⟨-2.5, 5.5⟩, .mountain⟩,
       ⟨⟨-2.5, 10.5⟩, ⟨-2.05, 9.75⟩, .cut⟩,
       ⟨⟨-2.05, 9.75⟩, ⟨-2.05, 6.25⟩, .cut⟩,
       ⟨⟨-2.05, 6.25⟩, ⟨-2.5, 5.5⟩, .cut⟩] := by
    simp only [generateLockingTab, hp3, normalize_down5, plength_down5]
    norm_num [padd, psub, pscale, pneg, fold, v2]
  have hp4 : psub (v2 (5 / 2) (5 / 2 + 3 + 5)) (v2 (5 / 2) (5 / 2 + 3)) =
      (⟨0, 5⟩ : Pt) := by
    norm_num [psub, v2]
  have t4 : (generateLockingTab (v2 (5 / 2) (5 / 2 + 3)) (v2 (5 / 2) (5 / 2 + 3 + 5))
      0.45 true).foldLines =
      [⟨⟨2.5, 5.5⟩, ⟨2.5, 10.5⟩, .mountain⟩,
       ⟨⟨2.5, 5.5⟩, ⟨2.05, 6.25⟩, .cut⟩,
       ⟨⟨2.05, 6.25⟩, ⟨2.05, 9.75⟩, .cut⟩,
       ⟨⟨2.05, 9.75⟩, ⟨2.5, 10.5⟩, .cut⟩] := by
    simp only [generateLockingTab, hp4, normalize_up5, plength_up5]
    norm_num [padd, psub, pscale, pneg, fold, v2]
  have hp5 : psub (v2 (5 / 2) (5 / 2 + 3 + 5)) (v2 (-5 / 2) (5 / 2 + 3 + 5)) =
      (⟨5, 0⟩ : Pt) := by
    norm_num [psub, v2]
  have t5 : (generateLockingTab (v2 (-5 / 2) (5 / 2 + 3 + 5)) (v2 (5 / 2) (5 / 2 + 3 + 5))
      0.45 false).foldLines =
      [⟨⟨-2.5, 10.5⟩, ⟨2.5, 10.5⟩, .mountain⟩,
       ⟨⟨-2.5, 10.5⟩, ⟨-1.75, 10.05⟩, .cut⟩,
       ⟨⟨-1.75, 10.05⟩, ⟨1.75, 10.05⟩, .cut⟩,
       ⟨⟨1.75, 10.05⟩, ⟨2.5, 10.5⟩, .cut⟩] := by
    simp only [generateLockingTab, hp5, normalize_right5, plength_right5]
    norm_num [padd, psub, pscale, pneg, fold, v2]
  have hs1 : generateSlit (v2 (-5 / 2 - 3) (-5 / 2)) (v2 (-5 / 2 - 3) (5 / 2)) 0.7 =
      [⟨⟨-5.5, -1.75⟩, ⟨-5.5, 1.75⟩, .cut⟩] := by
    rw [show v2 (-5 / 2 - 3) (-5 / 2) = (⟨-5.5, -2.5⟩ : Pt) by
        simp [v2]; norm_num,
      show v2 (-5 / 2 - 3) (5 / 2) = (⟨-5.5, 2.5⟩ : Pt) by
        simp [v2]; norm_num,
      generateSlit_vertical (-5.5) (-2.5) 2.5 0.7 (by norm_num)]
    norm_num [fold]
  have hs2 : generateSlit (v2 (5 / 2 + 3) (-5 / 2)) (v2 (5 / 2 + 3) (5 / 2)) 0.7 =
      [⟨⟨5.5, -1.75⟩, ⟨5.5, 1.75⟩, .cut⟩] := by
    rw [show v2 (5 / 2 + 3) (-5 / 2) = (⟨5.5, -2.5⟩ : Pt) by
        simp [v2]; norm_num,
      show v2 (5 / 2 + 3) (5 / 2) = (⟨5.5, 2.5⟩ : Pt) by
        simp [v2]; norm_num,
      generateSlit_vertical 5.5 (-2.5) 2.5 0.7 (by norm_num)]
    norm_num [fold]
  show (generateBoxPattern boxScenarioConfig).foldLines = boxScenarioLines
  simp only [generateBoxPattern, boxScenarioConfig]
  rw [htd, t1, t2, t3, t4, t5, hs1, hs2]
  simp only [boxScenarioLines, fold, v2, List.cons_append, List.nil_append,
    List.cons.injEq, FoldLine.mk.injEq, Pt.mk.injEq]
  norm_num

/-- The tab-base corner `(-2.5, -5.5)` (the back face's bottom-left corner)
is collected by `extractVertices`: it is the very first endpoint processed,
so it is inserted verbatim and membership is preserved by the rest of the
fold. -/
lemma boxScenario_mem_backBL :
    (⟨-2.5, -5.5⟩ : Pt) ∈ extractVertices boxScenarioLines := by
  rw [extractVertices, boxScenarioLines, List.foldl_cons]
  refine mem_extractVertices_foldl _ _ ?_
  refine mem_insertVertex ?_ _
  simp [insertVertex]

/-- The four fold lines incident (within tolerance 1e-3) to the tab-base
corner `(-2.5, -5.5)`: two perimeter cuts, the duplicated tab-base mountain
fold, and the diagonal tab cut towards `(-2.95, -5.05)`. -/
lemma boxScenario_connected_backBL :
    findConnectedLines ⟨-2.5, -5.5⟩ boxScenarioLines 0.001 =
      [⟨⟨-2.5, -5.5⟩, ⟨2.5, -5.5⟩, .cut⟩,
       ⟨⟨-2.5, -5.5⟩, ⟨-2.5, -2.5⟩, .cut⟩,
       ⟨⟨-2.5, -5.5⟩, ⟨-2.5, -2.5⟩, .mountain⟩,
       ⟨⟨-2.5, -5.5⟩, ⟨-2.95, -5.05⟩, .cut⟩] := by
  rw [findConnectedLines, boxScenarioLines]
  simp only [List.filter_cons, List.filter_nil, Bool.or_eq_true, decide_eq_true_eq,
    near_iff]
  norm_num

set_option maxHeartbeats 1000000 in
/-- Kawasaki–Justin fails at the tab-base corner `(-2.5, -5.5)`: its four
incident directions are `0, π/2, π/2, 3π/4`, giving consecutive angles
`π/2, 0, π/4, 3π/4` whose total is `3π/2 ≠ 2π` (and alternating sums
`3π/4 ≠ π`), far beyond the 0.01 rad tolerance. -/
lemma boxScenario_kj_backBL_invalid :
    (verifyKawasakiJustinAtVertex ⟨-2.5, -5.5⟩
      [⟨⟨-2.5, -5.5⟩, ⟨2.5, -5.5⟩, .cut⟩,
       ⟨⟨-2.5, -5.5⟩, ⟨-2.5, -2.5⟩, .cut⟩,
       ⟨⟨-2.5, -5.5⟩, ⟨-2.5, -2.5⟩, .mountain⟩,
       ⟨⟨-2.5, -5.5⟩, ⟨-2.95, -5.05⟩, .cut⟩]).valid = false := by
  have hs2 : Real.sqrt 2 * Real.sqrt 2 = 2 := Real.mul_self_sqrt (by norm_num)
  have hs2pos : 0 < Real.sqrt 2 := Real.sqrt_pos.mpr (by norm_num)
  have hs2le : Real.sqrt 2 ≤ 1.5 := by nlinarith
  have hd1 : normalize (psub (⟨2.5, -5.5⟩ : Pt) ⟨-2.5, -5.5⟩) = ⟨1, 0⟩ := by
    rw [show psub (⟨2.5, -5.5⟩ : Pt) ⟨-2.5, -5.5⟩ = ⟨5, 0⟩ by norm_num [psub]]
    exact normalize_right5
  have hd2 : normalize (psub (⟨-2.5, -2.5⟩ : Pt) ⟨-2.5, -5.5⟩) = ⟨0, 1⟩ := by
    rw [show psub (⟨-2.5, -2.5⟩ : Pt) ⟨-2.5, -5.5⟩ = ⟨0, 3⟩ by norm_num [psub]]
    exact normalize_up3
  have hd4 : normalize (psub (⟨-2.95, -5.05⟩ : Pt) ⟨-2.5, -5.5⟩) =
      ⟨-(Real.sqrt 2 / 2), Real.sqrt 2 / 2⟩ := by
    rw [show psub (⟨-2.95, -5.05⟩ : Pt) ⟨-2.5, -5.5⟩ = ⟨-0.45, 0.45⟩ by norm_num [psub]]
    rw [normalize_eval (show (0 : ℝ) < 0.45 * Real.sqrt 2 by positivity)
      (show (-0.45 : ℝ) ^ 2 + (0.45 : ℝ) ^ 2 = (0.45 * Real.sqrt 2) ^ 2 by
        rw [mul_pow, Real.sq_sqrt (by norm_num : (0 : ℝ) ≤ 2)]
        norm_num)]
    have hx : (0.45 : ℝ) / (0.45 * Real.sqrt 2) = Real.sqrt 2 / 2 := by
      rw [div_eq_div_iff (by positivity) (by norm_num)]
      linear_combination (-0.45 : ℝ) * hs2
    ext
    · show (-0.45 : ℝ) / (0.45 * Real.sqrt 2) = -(Real.sqrt 2 / 2)
      rw [neg_div, hx]
    · exact hx
  have ha1 : dirAngle ⟨1, 0⟩ = 0 := by
    norm_num [dirAngle, atan2, Real.arctan_zero]
  have ha2 : dirAngle ⟨0, 1⟩ = π / 2 := by
    norm_num [dirAngle, atan2]
  have ha4 : dirAngle ⟨-(Real.sqrt 2 / 2), Real.sqrt 2 / 2⟩ = 3 * π / 4 := by
    rw [dirAngle, atan2]
    rw [if_neg (by simp; nlinarith), if_pos (by nlinarith : -(Real.sqrt 2 / 2) < 0),
      if_pos (by positivity : (0 : ℝ) ≤ Real.sqrt 2 / 2)]
    rw [show Real.sqrt 2 / 2 / -(Real.sqrt 2 / 2) = -1 by
      rw [div_neg, div_self (by positivity : Real.sqrt 2 / 2 ≠ 0)]]
    rw [show (-1 : ℝ) = -(1 : ℝ) from rfl, Real.arctan_neg, Real.arctan_one]
    ring
  have hc1 : dirAngle (⟨0, 1⟩ : Pt) ≤ dirAngle ⟨-(Real.sqrt 2 / 2), Real.sqrt 2 / 2⟩ := by
    rw [ha2, ha4]
    linarith [Real.pi_pos]
  have hc2 : dirAngle (⟨1, 0⟩ : Pt) ≤ dirAngle (⟨0, 1⟩ : Pt) := by
    rw [ha1, ha2]
    linarith [Real.pi_pos]
  have hsort : List.insertionSort (fun a b => dirAngle a ≤ dirAngle b)
      ([⟨1, 0⟩, ⟨0, 1⟩, ⟨0, 1⟩, ⟨-(Real.sqrt 2 / 2), Real.sqrt 2 / 2⟩] : List Pt) =
      ([⟨1, 0⟩, ⟨0, 1⟩, ⟨0, 1⟩, ⟨-(Real.sqrt 2 / 2), Real.sqrt 2 / 2⟩] : List Pt) := by
    simp [List.insertionSort, List.orderedInsert, hc1, hc2]
  have harc : Real.arccos (Real.sqrt 2 / 2) = π / 4 := by
    rw [← Real.cos_pi_div_four,
      Real.arccos_cos (by positivity) (by linarith [Real.pi_pos])]
  have harcneg : Real.arccos (-(Real.sqrt 2 / 2)) = 3 * π / 4 := by
    rw [Real.arccos_neg, harc]
    ring
  have hmin1 : min (1 : ℝ) (Real.sqrt 2 / 2) = Real.sqrt 2 / 2 :=
    min_eq_right (by nlinarith)
  have hmax1 : max (-1 : ℝ) (Real.sqrt 2 / 2) = Real.sqrt 2 / 2 :=
    max_eq_right (by nlinarith)
  have hmin2 : min (1 : ℝ) (-(Real.sqrt 2 / 2)) = -(Real.sqrt 2 / 2) :=
    min_eq_right (by nlinarith)
  have hmax2 : max (-1 : ℝ) (-(Real.sqrt 2 / 2)) = -(Real.sqrt 2 / 2) :=
    max_eq_right (by nlinarith)
  rw [verifyKawasakiJustinAtVertex]
  rw [if_neg (by simp [KAWASAKI_JUSTIN])]
  simp only [List.map_cons, List.map_nil]
  simp only [ite_true]
  rw [hd1, hd2, hd4]
  rw [hsort]
  simp only [List.length_cons, List.length_nil]
  rw [(by decide : List.range 4 = [0, 1, 2, 3])]
  simp only [List.map_cons, List.map_nil]
  norm_num [List.getD, pdot]
  have hfilE : ∀ a b c d : ℝ, (List.map Prod.snd
      (List.filter (fun p => p.1 % 2 == 0) (List.enum [a, b, c, d]))).sum =
      a + c := by
    intro a b c d
    simp [List.enum, List.enumFrom]
    norm_num [List.filter_cons]
  have hfilO : ∀ a b c d : ℝ, (List.map Prod.snd
      (List.filter (fun p => p.1 % 2 == 1) (List.enum [a, b, c, d]))).sum =
      b + d := by
    intro a b c d
    simp [List.enum, List.enumFrom]
    norm_num [List.filter_cons]
  rw [hmin1, hmax1, hmin2, hmax2, harc, harcneg, hfilE, hfilO]
  simp only [KAWASAKI_JUSTIN]
  intro h1 h2
  refine lt_abs.mpr (Or.inr ?concl)
  linarith [Real.pi_gt_three]

/-- The box scenario's tab-design check fails: expected tab depth
`min(5, 3, 5) · 0.15 = 0.45` is below the minimum feature size
`5 · thickness = 2.5`. -/
lemma boxScenario_tabDesign_invalid :
    (validateTabDesign boxScenarioConfig).valid = false := by
  unfold validateTabDesign
  simp only [boxScenarioConfig, depthCoefficient, minFeatureSizeMultiplier]
  rw [if_pos (by norm_num [min_def])]

/-- C1 counterexample: for the box scenario `{box, 5, 3, 5, 0.5}`, the
Kawasaki–Justin validator is **not** satisfied at every vertex (it fails at
the tab-base corner `(-2.5, -5.5)`), and `validatePattern(...).overall` is
`false`, not `true` (the tab-design check errors: expected tab depth
`0.45 < 2.5 = 5 · thickness`). -/
theorem C1_counterexample :
    (validateKawasakiJustin (generateBoxPattern boxScenarioConfig)).valid = false ∧
    (validatePattern (generateBoxPattern boxScenarioConfig) boxScenarioConfig).overall
      = false := by
  constructor
  · rw [validateKawasakiJustin_valid, boxScenario_foldLines_eq]
    refine List.all_eq_false.mpr ⟨⟨-2.5, -5.5⟩, boxScenario_mem_backBL, ?_⟩
    rw [boxScenario_connected_backBL]
    simp [boxScenario_kj_backBL_invalid]
  · exact overall_false_of_tabDesign _ _ boxScenario_tabDesign_invalid

/-- C1 (amended): for `{box, width=5, height=3, depth=5, thickness=0.5}` the
generated pattern does have exactly the six documented faces (bottom, front,
back, left, right, top), but the Kawasaki–Justin check fails at the tab-base
corner vertices, the tab-design check errors (expected tab depth
`0.45 < 2.5 = 5 · thickness`), and `validatePattern(...).overall` is
therefore `false`. -/
theorem C1_box_scenario :
    (generateBoxPattern boxScenarioConfig).faces =
      [[0, 1, 2, 3], [3, 2, 5, 4], [1, 0, 6, 7],
       [0, 3, 9, 8], [2, 1, 10, 11], [4, 5, 13, 12]] ∧
    (validateKawasakiJustin (generateBoxPattern boxScenarioConfig)).valid = false ∧
    (validateTabDesign boxScenarioConfig).valid = false ∧
    (validatePattern (generateBoxPattern boxScenarioConfig) boxScenarioConfig).overall
      = false := by
  refine ⟨rfl, ?_, boxScenario_tabDesign_invalid,
    overall_false_of_tabDesign _ _ boxScenario_tabDesign_invalid⟩
  rw [validateKawasakiJustin_valid, boxScenario_foldLines_eq]
  refine List.all_eq_false.mpr ⟨⟨-2.5, -5.5⟩, boxScenario_mem_backBL, ?_⟩
  rw [boxScenario_connected_backBL]
  simp [boxScenario_kj_backBL_invalid]

end

end PaperFold